import Mathlib

/-!
Verification development for the `simple_script` embedded scripting language
(lexer, recursive-descent parser, tree-walking interpreter) of the
switchboard-mcp repository.  The definitions below are a shallow embedding,
translated function by function from `src/simple_script/lexer.py`,
`src/simple_script/parser.py` and `src/simple_script/interpreter.py`.

Modelling conventions:
* Python source text is a `List Char`; the lexer state mirrors the fields
  `pos/line/column/at_line_start/indent_stack` of the `Lexer` class, with the
  remaining characters replacing the `pos` cursor into the immutable source.
* The indentation stack is kept with its top at the HEAD of the list (Python
  appends/pops at the end of `indent_stack`; `indent_stack[-1]` is `headD`).
* Python exceptions become an error sum: `SyntaxError`, `RuntimeError`,
  `TypeError` and `ZeroDivisionError` values carrying the message text.
* The parser and interpreter contain loops that are not structurally
  recursive (and `while` scripts may genuinely diverge), so those functions
  take a fuel parameter; exhausting fuel yields a distinguished `gas`
  outcome that corresponds to no Python behaviour and is excluded from the
  theorems.
* Native tool callables are modelled as indices into a host table
  `host : Nat → List Value → Except Err Value` supplied as a parameter.
-/

namespace SimpleScript

/-- Python error values raised by the lexer/parser/interpreter. -/
inductive Err where
  | syntaxError (msg : String)
  | runtimeError (msg : String)
  | typeError (msg : String)
  | zeroDivisionError (msg : String)
  deriving DecidableEq, Repr

/-! ## Lexer (`src/simple_script/lexer.py`) -/

/-- `TokenType` enumeration from lexer.py. -/
inductive TokenType where
  | NUMBER | STRING | IDENTIFIER
  | IF | ELSE | WHILE | DEF | RETURN | FROM | IMPORT | AS
  | PLUS | MINUS | STAR | SLASH | EQUAL | EQUAL_EQUAL | LESS | GREATER
  | LPAREN | RPAREN | LBRACE | RBRACE | LBRACKET | RBRACKET
  | COMMA | DOT | COLON | NEWLINE | INDENT | DEDENT | EOF
  deriving DecidableEq, Repr

/-- Token payload (`Token.value : Any` in the source): numbers carry the
parsed integer, identifiers/keywords/operators/strings carry text, and
INDENT/DEDENT/EOF carry `None`. -/
inductive TokenValue where
  | none
  | num (n : Nat)
  | str (s : String)
  deriving DecidableEq, Repr

/-- The `Token` dataclass. -/
structure Token where
  type : TokenType
  value : TokenValue
  line : Nat
  deriving DecidableEq, Repr

/-- The keyword table of `Lexer.__init__`. -/
def keywords (s : String) : Option TokenType :=
  if s = "if" then some .IF
  else if s = "else" then some .ELSE
  else if s = "while" then some .WHILE
  else if s = "def" then some .DEF
  else if s = "return" then some .RETURN
  else if s = "from" then some .FROM
  else if s = "import" then some .IMPORT
  else if s = "as" then some .AS
  else none

/-- The mutable fields of the `Lexer` other than the cursor: the cursor
`pos` into the immutable source is represented by passing the remaining
character list separately (so the character-consuming loops are structural
recursions the kernel can evaluate). -/
structure LexMeta where
  line : Nat
  column : Nat
  at_line_start : Bool
  indent_stack : List Nat
  deriving DecidableEq, Repr

/-- `Lexer.__init__`: line 1, column 0, at line start, indent stack `[0]`. -/
def initMeta : LexMeta :=
  { line := 1, column := 0, at_line_start := true, indent_stack := [0] }

/-- `Lexer.advance` when the current character is `c`. -/
def advMeta (c : Char) (m : LexMeta) : LexMeta :=
  if c = '\n' then
    { m with line := m.line + 1, column := 0, at_line_start := true }
  else { m with column := m.column + 1 }

/-- `Lexer.advance` past the end of the source (`current_char()` is the
empty string, so only the cursor and column move). -/
def advMetaEOF (m : LexMeta) : LexMeta := { m with column := m.column + 1 }

/-- `Lexer.skip_whitespace`: inline whitespace only, never at line start.
At end of input Python has `current_char() == ""` and `"" in " \t\r"` is
True, so when `at_line_start` is false the loop advances forever: that
divergence is the `none` result. -/
def skipWhitespace : List Char → LexMeta → Option (List Char × LexMeta)
  | [], m => if m.at_line_start = false then none else some ([], m)
  | c :: rest, m =>
    if (c = ' ' ∨ c = '\t' ∨ c = '\r') ∧ m.at_line_start = false then
      skipWhitespace rest (advMeta c m)
    else some (c :: rest, m)

/-- The indentation-counting loop of `Lexer.handle_indentation`
(space counts 1, tab counts 4).  At end of input Python has
`current_char() == ""` and `"" in " \t"` is True, so the loop adds 4 and
advances forever: that divergence is the `none` result. -/
def countIndent : List Char → LexMeta → Nat → Option (Nat × List Char × LexMeta)
  | [], _, _ => none
  | c :: rest, m, level =>
    if c = ' ' then countIndent rest (advMeta c m) (level + 1)
    else if c = '\t' then countIndent rest (advMeta c m) (level + 4)
    else some (level, c :: rest, m)

/-- The DEDENT-popping loop of `Lexer.handle_indentation`: pop while the
stack has more than one entry and its top exceeds the new level, emitting
one DEDENT per pop; afterwards the top must equal the new level exactly.
The stack is kept with its top at the head (Python pushes/pops at the end
of `indent_stack`); it is never empty, so the `[]` case is unreachable. -/
def popDedents (indentLevel : Nat) (stack : List Nat) (line : Nat) :
    Except Err (List Token × List Nat) :=
  match stack with
  | [] => .ok ([], [])
  | top :: rest =>
    if rest ≠ [] ∧ indentLevel < top then
      match popDedents indentLevel rest line with
      | .error e => .error e
      | .ok (toks, stack2) =>
        .ok (Token.mk .DEDENT .none line :: toks, stack2)
    else
      if top ≠ indentLevel then
        .error (.syntaxError ("Indentation error at line " ++ toString line))
      else .ok ([], top :: rest)

/-- `Lexer.handle_indentation` (`none` = the indentation-counting loop
diverges at end of input). -/
def handleIndentation (cs : List Char) (m : LexMeta) :
    Option (Except Err (List Token × List Char × LexMeta)) :=
  if m.at_line_start = false then some (.ok ([], cs, m))
  else
    match countIndent cs m 0 with
    | none => none
    | some (indentLevel, cs1, m1) =>
      let m2 := { m1 with at_line_start := false }
      -- Skip blank lines and comments (the end-of-input disjunct of the
      -- Python check is unreachable: the counting loop never exits there)
      match cs1 with
      | [] => some (.ok ([], cs1, m2))
      | c :: _ =>
        if c = '\n' ∨ c = '#' then some (.ok ([], cs1, m2))
        else
          let currentIndent := m2.indent_stack.headD 0
          if currentIndent < indentLevel then
            some (.ok ([Token.mk .INDENT .none m2.line], cs1,
                 { m2 with indent_stack := indentLevel :: m2.indent_stack }))
          else if indentLevel < currentIndent then
            match popDedents indentLevel m2.indent_stack m2.line with
            | .error e => some (.error e)
            | .ok (toks, stack2) =>
              some (.ok (toks, cs1, { m2 with indent_stack := stack2 }))
          else some (.ok ([], cs1, m2))

/-- `Lexer.read_number` (the digit run is folded directly to the `int`). -/
def readNumber : List Char → LexMeta → Nat → Nat × List Char × LexMeta
  | [], m, acc => (acc, [], m)
  | c :: rest, m, acc =>
    if c.isDigit then
      readNumber rest (advMeta c m) (acc * 10 + (c.toNat - '0'.toNat))
    else (acc, c :: rest, m)

/-- `Lexer.read_identifier`. -/
def readIdentifier : List Char → LexMeta → List Char →
    List Char × List Char × LexMeta
  | [], m, acc => (acc, [], m)
  | c :: rest, m, acc =>
    if c.isAlphanum ∨ c = '_' then readIdentifier rest (advMeta c m) (acc ++ [c])
    else (acc, c :: rest, m)

/-- The character-collecting loop of `Lexer.read_string`, followed by the
final `advance()` that skips the closing quote (or moves past the end when
the input is exhausted). -/
def readStringLoop (quoteChar : Char) :
    List Char → LexMeta → List Char → List Char × List Char × LexMeta
  | [], m, acc => (acc, [], advMetaEOF m)
  | c :: rest, m, acc =>
    if c = quoteChar then (acc, rest, advMeta c m)
    else readStringLoop quoteChar rest (advMeta c m) (acc ++ [c])

/-- `Lexer.read_string`: skip the opening quote, then collect. -/
def readString (quoteChar : Char) (cs : List Char) (m : LexMeta) :
    List Char × List Char × LexMeta :=
  match cs with
  | [] => readStringLoop quoteChar [] (advMetaEOF m) []
  | c :: rest => readStringLoop quoteChar rest (advMeta c m) []

/-- The `=` branch of the scanner: after consuming the first `=`, a second
`=` yields EQUAL_EQUAL, anything else EQUAL. -/
def equalDispatch (cs : List Char) (m : LexMeta) :
    Token × List Char × LexMeta :=
  match cs with
  | '=' :: rest2 => (Token.mk .EQUAL_EQUAL (.str "==") m.line, rest2, advMeta '=' m)
  | _ => (Token.mk .EQUAL (.str "=") m.line, cs, m)

/-- Lexer loop results: `hang` marks the real Python divergence of
`skip_whitespace`/`handle_indentation` at end of input, while `gas` is
mere fuel exhaustion of the loop model (unreachable for the fuel
`tokenize` supplies). -/
inductive LRes where
  | ok (toks : List Token) (cs : List Char) (m : LexMeta)
  | err (e : Err)
  | gas
  | hang
  deriving DecidableEq, Repr

/-- One step of the scanner dispatch of `Lexer.tokenize`: the `elif` chain
over the current character `c` (with `rest` the characters after it).
Every branch of the Python chain appends exactly one token and advances,
so the chain is factored out of the loop as a function producing that
token and the new cursor/state (or the final `SyntaxError`). -/
def scanToken (c : Char) (rest : List Char) (m2 : LexMeta) :
    Except Err (Token × List Char × LexMeta) :=
  if c.isDigit then
    match readNumber (c :: rest) m2 0 with
    | (n, cs3, m3) => .ok (Token.mk .NUMBER (.num n) m3.line, cs3, m3)
  else if c.isAlpha ∨ c = '_' then
    match readIdentifier (c :: rest) m2 [] with
    | (ident, cs3, m3) =>
      let s := String.mk ident
      .ok (Token.mk ((keywords s).getD .IDENTIFIER) (.str s) m3.line, cs3, m3)
  else if c = '"' then
    match readString '"' (c :: rest) m2 with
    | (sChars, cs3, m3) =>
      .ok (Token.mk .STRING (.str (String.mk sChars)) m3.line, cs3, m3)
  else if c = '\'' then
    match readString '\'' (c :: rest) m2 with
    | (sChars, cs3, m3) =>
      .ok (Token.mk .STRING (.str (String.mk sChars)) m3.line, cs3, m3)
  else if c = '+' then
    .ok (Token.mk .PLUS (.str "+") m2.line, rest, advMeta c m2)
  else if c = '-' then
    .ok (Token.mk .MINUS (.str "-") m2.line, rest, advMeta c m2)
  else if c = '*' then
    .ok (Token.mk .STAR (.str "*") m2.line, rest, advMeta c m2)
  else if c = '/' then
    .ok (Token.mk .SLASH (.str "/") m2.line, rest, advMeta c m2)
  else if c = '=' then
    .ok (equalDispatch rest (advMeta c m2))
  else if c = '<' then
    .ok (Token.mk .LESS (.str "<") m2.line, rest, advMeta c m2)
  else if c = '>' then
    .ok (Token.mk .GREATER (.str ">") m2.line, rest, advMeta c m2)
  else if c = '(' then
    .ok (Token.mk .LPAREN (.str "(") m2.line, rest, advMeta c m2)
  else if c = ')' then
    .ok (Token.mk .RPAREN (.str ")") m2.line, rest, advMeta c m2)
  else if c = '\x7b' then
    .ok (Token.mk .LBRACE (.str "\x7b") m2.line, rest, advMeta c m2)
  else if c = '\x7d' then
    .ok (Token.mk .RBRACE (.str "\x7d") m2.line, rest, advMeta c m2)
  else if c = '[' then
    .ok (Token.mk .LBRACKET (.str "[") m2.line, rest, advMeta c m2)
  else if c = ']' then
    .ok (Token.mk .RBRACKET (.str "]") m2.line, rest, advMeta c m2)
  else if c = ',' then
    .ok (Token.mk .COMMA (.str ",") m2.line, rest, advMeta c m2)
  else if c = '.' then
    .ok (Token.mk .DOT (.str ".") m2.line, rest, advMeta c m2)
  else if c = ':' then
    .ok (Token.mk .COLON (.str ":") m2.line, rest, advMeta c m2)
  else if c = '\n' then
    .ok (Token.mk .NEWLINE (.str "\n") m2.line, rest, advMeta c m2)
  else
    .error (.syntaxError ("Unexpected character: " ++ String.mk [c]
      ++ " at line " ++ toString m2.line))

/-- The main scanning loop of `Lexer.tokenize` (the `while` over
`current_char()`); `acc` is the `tokens` list built so far.  The fuel
decreases once per iteration; every iteration consumes at least one
character, so the `length + 1` fuel that `tokenize` supplies always
suffices. -/
def tokenizeLoop (fuel : Nat) (cs : List Char) (m : LexMeta)
    (acc : List Token) : LRes :=
  match cs with
  | [] => .ok acc cs m
  | _ :: _ =>
    match fuel with
    | 0 => .gas
    | fuel + 1 =>
      match handleIndentation cs m with
      | none => .hang
      | some (.error e) => .err e
      | some (.ok (indentToks, cs1, m1)) =>
        match skipWhitespace cs1 m1 with
        | none => .hang
        | some (cs2, m2) =>
          match cs2 with
          | [] => .ok (acc ++ indentToks) cs2 m2
          | c :: rest =>
            match scanToken c rest m2 with
            | .error e => .err e
            | .ok (tok, cs3, m3) =>
              tokenizeLoop fuel cs3 m3 (acc ++ indentToks ++ [tok])

/-- `Lexer.tokenize`: run the scan loop, then emit one DEDENT per remaining
indentation level above the base, then EOF.  `none` = the Python lexer
loops forever on this source; the `gas` branch is unreachable for the
supplied fuel (every iteration consumes at least one character). -/
def tokenize (source : List Char) : Option (Except Err (List Token)) :=
  match tokenizeLoop (source.length + 1) source initMeta [] with
  | .hang => none
  | .err e => some (.error e)
  | .gas => some (.error (.syntaxError "fuel exhausted: unreachable"))
  | .ok toks _ m =>
    some (.ok (toks
      ++ List.replicate (m.indent_stack.length - 1)
           (Token.mk .DEDENT .none m.line)
      ++ [Token.mk .EOF .none m.line]))

/-! ## Parser (`src/simple_script/parser.py`) -/

/-- The accumulating pass of `splitOnChar` (collects the current segment in
`cur`, reversed). -/
def splitOnCharGo (sep : Char) : List Char → List Char → List (List Char)
  | [], cur => [cur.reverse]
  | c :: rest, cur =>
    if c = sep then cur.reverse :: splitOnCharGo sep rest []
    else splitOnCharGo sep rest (c :: cur)

/-- Python `str.split(sep)` for a one-character separator (structural, so
the kernel can evaluate it; `String.splitOn` is extensionally the same but
is defined by well-founded recursion). -/
def splitOnChar (sep : Char) (cs : List Char) : List (List Char) :=
  splitOnCharGo sep cs []

/-- Python `"sep".join(parts)` (structural replacement for
`String.intercalate`). -/
def joinSep (sep : String) : List String → String
  | [] => ""
  | [p] => p
  | p :: rest => p ++ sep ++ joinSep sep rest


/-- Expression AST nodes (the `ASTNode` dataclasses of parser.py).
`Variable` is spelled `var` because `variable` is reserved in Lean. -/
inductive Expr where
  | number (value : Nat)
  | string (value : String)
  | var (name : String)
  | binaryOp (left : Expr) (operator : String) (right : Expr)
  | call (function : String) (arguments : List Expr)
  | listLiteral (elements : List Expr)
  | dictLiteral (pairs : List (Expr × Expr))
  deriving Repr

/-- Statement AST nodes of parser.py.  `ImportStatement` carries
`module_path`, optional `names` (selective import) and optional `alias`
(module-alias import), with the same `None` defaults as the dataclass. -/
inductive Stmt where
  | importStmt (module_path : String) (names : Option (List String))
      (aliasName : Option String)
  | assignment (name : String) (value : Expr)
  | ifStmt (condition : Expr) (then_block : List Stmt) (else_block : List Stmt)
  | whileStmt (condition : Expr) (body : List Stmt)
  | functionDef (name : String) (parameters : List String) (body : List Stmt)
  | ret (value : Expr)
  | exprStmt (expression : Expr)
  deriving Repr

/-- Printable spelling of a token type, used in parse-error messages the way
Python prints `TokenType.X`. -/
def tyName : TokenType → String
  | .NUMBER => "TokenType.NUMBER" | .STRING => "TokenType.STRING"
  | .IDENTIFIER => "TokenType.IDENTIFIER" | .IF => "TokenType.IF"
  | .ELSE => "TokenType.ELSE" | .WHILE => "TokenType.WHILE"
  | .DEF => "TokenType.DEF" | .RETURN => "TokenType.RETURN"
  | .FROM => "TokenType.FROM" | .IMPORT => "TokenType.IMPORT"
  | .AS => "TokenType.AS" | .PLUS => "TokenType.PLUS"
  | .MINUS => "TokenType.MINUS" | .STAR => "TokenType.STAR"
  | .SLASH => "TokenType.SLASH" | .EQUAL => "TokenType.EQUAL"
  | .EQUAL_EQUAL => "TokenType.EQUAL_EQUAL" | .LESS => "TokenType.LESS"
  | .GREATER => "TokenType.GREATER" | .LPAREN => "TokenType.LPAREN"
  | .RPAREN => "TokenType.RPAREN" | .LBRACE => "TokenType.LBRACE"
  | .RBRACE => "TokenType.RBRACE" | .LBRACKET => "TokenType.LBRACKET"
  | .RBRACKET => "TokenType.RBRACKET" | .COMMA => "TokenType.COMMA"
  | .DOT => "TokenType.DOT" | .COLON => "TokenType.COLON"
  | .NEWLINE => "TokenType.NEWLINE" | .INDENT => "TokenType.INDENT"
  | .DEDENT => "TokenType.DEDENT" | .EOF => "TokenType.EOF"

/-- Project the text out of a token value (IDENTIFIER/STRING/operator tokens
always carry text; the other cases are unreachable where this is used). -/
def tvStr : TokenValue → String
  | .str s => s
  | .num n => toString n
  | .none => ""

/-- Project the number out of a NUMBER token value. -/
def tvNum : TokenValue → Nat
  | .num n => n
  | _ => 0

/-- `Parser.current_token`: past the end, Python returns `tokens[-1]`
(the token list produced by `tokenize` is never empty — it always ends in
EOF — so the empty-list default is unreachable). -/
def currentToken (t : List Token) (pos : Nat) : Token :=
  if t.length ≤ pos then t.getLastD (Token.mk .EOF .none 0)
  else t.getD pos (Token.mk .EOF .none 0)

/-- `Parser.expect`: check the current token type and advance. -/
def expect (t : List Token) (pos : Nat) (tt : TokenType) :
    Except Err (Token × Nat) :=
  if (currentToken t pos).type ≠ tt then
    .error (.syntaxError ("Expected " ++ tyName tt ++ ", got "
      ++ tyName (currentToken t pos).type))
  else .ok (currentToken t pos, pos + 1)

/-- Parser results: a parsed value plus the new cursor position, a syntax
error, or fuel exhaustion (`gas` corresponds to no Python behaviour; the
concrete Python loops either terminate or are exercised only with enough
fuel in the theorems below). -/
inductive PRes (α : Type) where
  | ok (a : α) (pos : Nat)
  | err (e : Err)
  | gas

/-! The recursive-descent parser.  Each Python method becomes one function;
each `while` loop inside a method becomes a `...Loop` function.  The body
loop `while current ≠ DEDENT: parse_statement(); skip_newlines()` appears
verbatim four times in the source (function body, if-then, if-else, while
body) and is shared here as `parseBlockLoop`. -/
mutual

/-- `Parser.skip_newlines`. -/
def skipNewlines (fuel : Nat) (t : List Token) (pos : Nat) : PRes Unit :=
  match fuel with
  | 0 => .gas
  | fuel + 1 =>
    if (currentToken t pos).type = .NEWLINE then skipNewlines fuel t (pos + 1)
    else .ok () pos
termination_by structural fuel


/-- `Parser.parse`: top-level statement list. -/
def parseProgram (fuel : Nat) (t : List Token) (pos : Nat) :
    PRes (List Stmt) :=
  match fuel with
  | 0 => .gas
  | fuel + 1 =>
    match skipNewlines fuel t pos with
    | .err e => .err e
    | .gas => .gas
    | .ok _ pos => parseProgramLoop fuel t pos []


/-- The `while current ≠ EOF` loop of `Parser.parse`. -/
def parseProgramLoop (fuel : Nat) (t : List Token) (pos : Nat)
    (acc : List Stmt) : PRes (List Stmt) :=
  match fuel with
  | 0 => .gas
  | fuel + 1 =>
    if (currentToken t pos).type = .EOF then .ok acc pos
    else
      match parseStatement fuel t pos with
      | .err e => .err e
      | .gas => .gas
      | .ok s pos =>
        match skipNewlines fuel t pos with
        | .err e => .err e
        | .gas => .gas
        | .ok _ pos => parseProgramLoop fuel t pos (acc ++ [s])
termination_by structural fuel


/-- `Parser.parse_statement`. -/
def parseStatement (fuel : Nat) (t : List Token) (pos : Nat) : PRes Stmt :=
  match fuel with
  | 0 => .gas
  | fuel + 1 =>
    match skipNewlines fuel t pos with
    | .err e => .err e
    | .gas => .gas
    | .ok _ pos =>
      let cur := currentToken t pos
      if cur.type = .FROM ∨ cur.type = .IMPORT then
        parseImportStatement fuel t pos
      else if cur.type = .DEF then parseFunctionDef fuel t pos
      else if cur.type = .IF then parseIfStatement fuel t pos
      else if cur.type = .WHILE then parseWhileStatement fuel t pos
      else if cur.type = .RETURN then
        match parseExpression fuel t (pos + 1) with
        | .err e => .err e
        | .gas => .gas
        | .ok value pos =>
          match skipNewlines fuel t pos with
          | .err e => .err e
          | .gas => .gas
          | .ok _ pos => .ok (.ret value) pos
      else if cur.type = .IDENTIFIER then
        let name := tvStr cur.value
        -- after `self.advance()` the parser looks one token ahead
        if (currentToken t (pos + 1)).type = .EQUAL then
          match parseExpression fuel t (pos + 2) with
          | .err e => .err e
          | .gas => .gas
          | .ok value pos =>
            match skipNewlines fuel t pos with
            | .err e => .err e
            | .gas => .gas
            | .ok _ pos => .ok (.assignment name value) pos
        else
          -- `self.pos -= 1  # backtrack`: parse from the identifier again
          match parseExpression fuel t pos with
          | .err e => .err e
          | .gas => .gas
          | .ok expr pos =>
            match skipNewlines fuel t pos with
            | .err e => .err e
            | .gas => .gas
            | .ok _ pos => .ok (.exprStmt expr) pos
      else
        match parseExpression fuel t pos with
        | .err e => .err e
        | .gas => .gas
        | .ok expr pos =>
          match skipNewlines fuel t pos with
          | .err e => .err e
          | .gas => .gas
          | .ok _ pos => .ok (.exprStmt expr) pos
termination_by structural fuel


/-- The dotted-module-path loop of `Parser.parse_import_statement`
(`while current == DOT: advance; parts.append(expect(IDENTIFIER))`). -/
def parseModulePathLoop (fuel : Nat) (t : List Token) (pos : Nat)
    (parts : List String) : PRes (List String) :=
  match fuel with
  | 0 => .gas
  | fuel + 1 =>
    if (currentToken t pos).type = .DOT then
      match expect t (pos + 1) .IDENTIFIER with
      | .error e => .err e
      | .ok (tok, pos) =>
        parseModulePathLoop fuel t pos (parts ++ [tvStr tok.value])
    else .ok parts pos
termination_by structural fuel


/-- The import-name list loop of `Parser.parse_import_statement`
(`while current == COMMA: advance; names.append(expect(IDENTIFIER))`). -/
def parseImportNamesLoop (fuel : Nat) (t : List Token) (pos : Nat)
    (names : List String) : PRes (List String) :=
  match fuel with
  | 0 => .gas
  | fuel + 1 =>
    if (currentToken t pos).type = .COMMA then
      match expect t (pos + 1) .IDENTIFIER with
      | .error e => .err e
      | .ok (tok, pos) =>
        parseImportNamesLoop fuel t pos (names ++ [tvStr tok.value])
    else .ok names pos
termination_by structural fuel


/-- `Parser.parse_import_statement` (both the selective `from … import …`
form and the module-alias `import … as …` form). -/
def parseImportStatement (fuel : Nat) (t : List Token) (pos : Nat) :
    PRes Stmt :=
  match fuel with
  | 0 => .gas
  | fuel + 1 =>
    let cur := currentToken t pos
    if cur.type = .FROM then
      match expect t pos .FROM with
      | .error e => .err e
      | .ok (_, pos) =>
        match expect t pos .IDENTIFIER with
        | .error e => .err e
        | .ok (tok0, pos) =>
          match parseModulePathLoop fuel t pos [tvStr tok0.value] with
          | .err e => .err e
          | .gas => .gas
          | .ok parts pos =>
            match expect t pos .IMPORT with
            | .error e => .err e
            | .ok (_, pos) =>
              match expect t pos .IDENTIFIER with
              | .error e => .err e
              | .ok (name0, pos) =>
                match parseImportNamesLoop fuel t pos
                    [tvStr name0.value] with
                | .err e => .err e
                | .gas => .gas
                | .ok names pos =>
                  match skipNewlines fuel t pos with
                  | .err e => .err e
                  | .gas => .gas
                  | .ok _ pos =>
                    .ok (.importStmt (joinSep "." parts)
                          (some names) none) pos
    else if cur.type = .IMPORT then
      match expect t pos .IMPORT with
      | .error e => .err e
      | .ok (_, pos) =>
        match expect t pos .IDENTIFIER with
        | .error e => .err e
        | .ok (tok0, pos) =>
          match parseModulePathLoop fuel t pos [tvStr tok0.value] with
          | .err e => .err e
          | .gas => .gas
          | .ok parts pos =>
            match expect t pos .AS with
            | .error e => .err e
            | .ok (_, pos) =>
              match expect t pos .IDENTIFIER with
              | .error e => .err e
              | .ok (aliasTok, pos) =>
                match skipNewlines fuel t pos with
                | .err e => .err e
                | .gas => .gas
                | .ok _ pos =>
                  .ok (.importStmt (joinSep "." parts)
                        none (some (tvStr aliasTok.value))) pos
    else
      .err (.syntaxError ("Expected 'from' or 'import', got "
        ++ tyName cur.type))


/-- The parameter-list loop of `Parser.parse_function_def`. -/
def parseParamsLoop (fuel : Nat) (t : List Token) (pos : Nat)
    (params : List String) : PRes (List String) :=
  match fuel with
  | 0 => .gas
  | fuel + 1 =>
    if (currentToken t pos).type = .COMMA then
      match expect t (pos + 1) .IDENTIFIER with
      | .error e => .err e
      | .ok (tok, pos) => parseParamsLoop fuel t pos (params ++ [tvStr tok.value])
    else .ok params pos
termination_by structural fuel


/-- The statement-block loop `while current ≠ DEDENT` shared by function
bodies, if branches and while bodies. -/
def parseBlockLoop (fuel : Nat) (t : List Token) (pos : Nat)
    (acc : List Stmt) : PRes (List Stmt) :=
  match fuel with
  | 0 => .gas
  | fuel + 1 =>
    if (currentToken t pos).type = .DEDENT then .ok acc pos
    else
      match parseStatement fuel t pos with
      | .err e => .err e
      | .gas => .gas
      | .ok s pos =>
        match skipNewlines fuel t pos with
        | .err e => .err e
        | .gas => .gas
        | .ok _ pos => parseBlockLoop fuel t pos (acc ++ [s])
termination_by structural fuel


/-- `Parser.parse_function_def`. -/
def parseFunctionDef (fuel : Nat) (t : List Token) (pos : Nat) : PRes Stmt :=
  match fuel with
  | 0 => .gas
  | fuel + 1 =>
    match expect t pos .DEF with
    | .error e => .err e
    | .ok (_, pos) =>
      match expect t pos .IDENTIFIER with
      | .error e => .err e
      | .ok (nameTok, pos) =>
        match expect t pos .LPAREN with
        | .error e => .err e
        | .ok (_, pos) =>
          let afterParams :=
            if (currentToken t pos).type ≠ .RPAREN then
              match expect t pos .IDENTIFIER with
              | .error e => PRes.err e
              | .ok (p0, pos) => parseParamsLoop fuel t pos [tvStr p0.value]
            else PRes.ok [] pos
          match afterParams with
          | .err e => .err e
          | .gas => .gas
          | .ok params pos =>
            match expect t pos .RPAREN with
            | .error e => .err e
            | .ok (_, pos) =>
              match expect t pos .COLON with
              | .error e => .err e
              | .ok (_, pos) =>
                match skipNewlines fuel t pos with
                | .err e => .err e
                | .gas => .gas
                | .ok _ pos =>
                  match expect t pos .INDENT with
                  | .error e => .err e
                  | .ok (_, pos) =>
                    match parseBlockLoop fuel t pos [] with
                    | .err e => .err e
                    | .gas => .gas
                    | .ok body pos =>
                      match expect t pos .DEDENT with
                      | .error e => .err e
                      | .ok (_, pos) =>
                        match skipNewlines fuel t pos with
                        | .err e => .err e
                        | .gas => .gas
                        | .ok _ pos =>
                          .ok (.functionDef (tvStr nameTok.value)
                                params body) pos
termination_by structural fuel


/-- `Parser.parse_if_statement`. -/
def parseIfStatement (fuel : Nat) (t : List Token) (pos : Nat) : PRes Stmt :=
  match fuel with
  | 0 => .gas
  | fuel + 1 =>
    match expect t pos .IF with
    | .error e => .err e
    | .ok (_, pos) =>
      match parseExpression fuel t pos with
      | .err e => .err e
      | .gas => .gas
      | .ok condition pos =>
        match expect t pos .COLON with
        | .error e => .err e
        | .ok (_, pos) =>
          match skipNewlines fuel t pos with
          | .err e => .err e
          | .gas => .gas
          | .ok _ pos =>
            match expect t pos .INDENT with
            | .error e => .err e
            | .ok (_, pos) =>
              match parseBlockLoop fuel t pos [] with
              | .err e => .err e
              | .gas => .gas
              | .ok thenBlock pos =>
                match expect t pos .DEDENT with
                | .error e => .err e
                | .ok (_, pos) =>
                  match skipNewlines fuel t pos with
                  | .err e => .err e
                  | .gas => .gas
                  | .ok _ pos =>
                    if (currentToken t pos).type = .ELSE then
                      match expect t (pos + 1) .COLON with
                      | .error e => .err e
                      | .ok (_, pos) =>
                        match skipNewlines fuel t pos with
                        | .err e => .err e
                        | .gas => .gas
                        | .ok _ pos =>
                          match expect t pos .INDENT with
                          | .error e => .err e
                          | .ok (_, pos) =>
                            match parseBlockLoop fuel t pos [] with
                            | .err e => .err e
                            | .gas => .gas
                            | .ok elseBlock pos =>
                              match expect t pos .DEDENT with
                              | .error e => .err e
                              | .ok (_, pos) =>
                                match skipNewlines fuel t pos with
                                | .err e => .err e
                                | .gas => .gas
                                | .ok _ pos =>
                                  .ok (.ifStmt condition thenBlock
                                        elseBlock) pos
                    else .ok (.ifStmt condition thenBlock []) pos
termination_by structural fuel


/-- `Parser.parse_while_statement`. -/
def parseWhileStatement (fuel : Nat) (t : List Token) (pos : Nat) :
    PRes Stmt :=
  match fuel with
  | 0 => .gas
  | fuel + 1 =>
    match expect t pos .WHILE with
    | .error e => .err e
    | .ok (_, pos) =>
      match parseExpression fuel t pos with
      | .err e => .err e
      | .gas => .gas
      | .ok condition pos =>
        match expect t pos .COLON with
        | .error e => .err e
        | .ok (_, pos) =>
          match skipNewlines fuel t pos with
          | .err e => .err e
          | .gas => .gas
          | .ok _ pos =>
            match expect t pos .INDENT with
            | .error e => .err e
            | .ok (_, pos) =>
              match parseBlockLoop fuel t pos [] with
              | .err e => .err e
              | .gas => .gas
              | .ok body pos =>
                match expect t pos .DEDENT with
                | .error e => .err e
                | .ok (_, pos) =>
                  match skipNewlines fuel t pos with
                  | .err e => .err e
                  | .gas => .gas
                  | .ok _ pos => .ok (.whileStmt condition body) pos
termination_by structural fuel


/-- `Parser.parse_expression`. -/
def parseExpression (fuel : Nat) (t : List Token) (pos : Nat) : PRes Expr :=
  match fuel with
  | 0 => .gas
  | fuel + 1 => parseComparison fuel t pos
termination_by structural fuel


/-- `Parser.parse_comparison`. -/
def parseComparison (fuel : Nat) (t : List Token) (pos : Nat) : PRes Expr :=
  match fuel with
  | 0 => .gas
  | fuel + 1 =>
    match parseAddition fuel t pos with
    | .err e => .err e
    | .gas => .gas
    | .ok left pos => parseComparisonLoop fuel t pos left
termination_by structural fuel


/-- The operator loop of `Parser.parse_comparison`. -/
def parseComparisonLoop (fuel : Nat) (t : List Token) (pos : Nat)
    (left : Expr) : PRes Expr :=
  match fuel with
  | 0 => .gas
  | fuel + 1 =>
    let cur := currentToken t pos
    if cur.type = .EQUAL_EQUAL ∨ cur.type = .LESS ∨ cur.type = .GREATER then
      match parseAddition fuel t (pos + 1) with
      | .err e => .err e
      | .gas => .gas
      | .ok right pos =>
        parseComparisonLoop fuel t pos (.binaryOp left (tvStr cur.value) right)
    else .ok left pos
termination_by structural fuel


/-- `Parser.parse_addition`. -/
def parseAddition (fuel : Nat) (t : List Token) (pos : Nat) : PRes Expr :=
  match fuel with
  | 0 => .gas
  | fuel + 1 =>
    match parseMultiplication fuel t pos with
    | .err e => .err e
    | .gas => .gas
    | .ok left pos => parseAdditionLoop fuel t pos left
termination_by structural fuel


/-- The operator loop of `Parser.parse_addition`. -/
def parseAdditionLoop (fuel : Nat) (t : List Token) (pos : Nat)
    (left : Expr) : PRes Expr :=
  match fuel with
  | 0 => .gas
  | fuel + 1 =>
    let cur := currentToken t pos
    if cur.type = .PLUS ∨ cur.type = .MINUS then
      match parseMultiplication fuel t (pos + 1) with
      | .err e => .err e
      | .gas => .gas
      | .ok right pos =>
        parseAdditionLoop fuel t pos (.binaryOp left (tvStr cur.value) right)
    else .ok left pos
termination_by structural fuel


/-- `Parser.parse_multiplication`. -/
def parseMultiplication (fuel : Nat) (t : List Token) (pos : Nat) :
    PRes Expr :=
  match fuel with
  | 0 => .gas
  | fuel + 1 =>
    match parsePrimary fuel t pos with
    | .err e => .err e
    | .gas => .gas
    | .ok left pos => parseMultiplicationLoop fuel t pos left
termination_by structural fuel


/-- The operator loop of `Parser.parse_multiplication`. -/
def parseMultiplicationLoop (fuel : Nat) (t : List Token) (pos : Nat)
    (left : Expr) : PRes Expr :=
  match fuel with
  | 0 => .gas
  | fuel + 1 =>
    let cur := currentToken t pos
    if cur.type = .STAR ∨ cur.type = .SLASH then
      match parsePrimary fuel t (pos + 1) with
      | .err e => .err e
      | .gas => .gas
      | .ok right pos =>
        parseMultiplicationLoop fuel t pos
          (.binaryOp left (tvStr cur.value) right)
    else .ok left pos
termination_by structural fuel


/-- The dotted-name loop of `Parser.parse_primary`
(`while current == DOT: name += "." + expect(IDENTIFIER)`). -/
def parseDottedNameLoop (fuel : Nat) (t : List Token) (pos : Nat)
    (name : String) : PRes String :=
  match fuel with
  | 0 => .gas
  | fuel + 1 =>
    if (currentToken t pos).type = .DOT then
      match expect t (pos + 1) .IDENTIFIER with
      | .error e => .err e
      | .ok (tok, pos) =>
        parseDottedNameLoop fuel t pos (name ++ "." ++ tvStr tok.value)
    else .ok name pos
termination_by structural fuel


/-- The argument loop of a call in `Parser.parse_primary`. -/
def parseCallArgsLoop (fuel : Nat) (t : List Token) (pos : Nat)
    (args : List Expr) : PRes (List Expr) :=
  match fuel with
  | 0 => .gas
  | fuel + 1 =>
    if (currentToken t pos).type = .COMMA then
      match parseExpression fuel t (pos + 1) with
      | .err e => .err e
      | .gas => .gas
      | .ok arg pos => parseCallArgsLoop fuel t pos (args ++ [arg])
    else .ok args pos
termination_by structural fuel


/-- The element loop of a list literal in `Parser.parse_primary`. -/
def parseListElemsLoop (fuel : Nat) (t : List Token) (pos : Nat)
    (elems : List Expr) : PRes (List Expr) :=
  match fuel with
  | 0 => .gas
  | fuel + 1 =>
    if (currentToken t pos).type = .COMMA then
      match parseExpression fuel t (pos + 1) with
      | .err e => .err e
      | .gas => .gas
      | .ok e2 pos => parseListElemsLoop fuel t pos (elems ++ [e2])
    else .ok elems pos
termination_by structural fuel


/-- The pair loop of a dict literal in `Parser.parse_primary` (allows a
trailing comma). -/
def parseDictPairsLoop (fuel : Nat) (t : List Token) (pos : Nat)
    (pairs : List (Expr × Expr)) : PRes (List (Expr × Expr)) :=
  match fuel with
  | 0 => .gas
  | fuel + 1 =>
    if (currentToken t pos).type = .COMMA then
      if (currentToken t (pos + 1)).type = .RBRACE then .ok pairs (pos + 1)
      else
        match parseExpression fuel t (pos + 1) with
        | .err e => .err e
        | .gas => .gas
        | .ok key pos =>
          match expect t pos .COLON with
          | .error e => .err e
          | .ok (_, pos) =>
            match parseExpression fuel t pos with
            | .err e => .err e
            | .gas => .gas
            | .ok value pos =>
              parseDictPairsLoop fuel t pos (pairs ++ [(key, value)])
    else .ok pairs pos
termination_by structural fuel


/-- `Parser.parse_primary`. -/
def parsePrimary (fuel : Nat) (t : List Token) (pos : Nat) : PRes Expr :=
  match fuel with
  | 0 => .gas
  | fuel + 1 =>
    let cur := currentToken t pos
    if cur.type = .NUMBER then .ok (.number (tvNum cur.value)) (pos + 1)
    else if cur.type = .STRING then .ok (.string (tvStr cur.value)) (pos + 1)
    else if cur.type = .IDENTIFIER then
      match parseDottedNameLoop fuel t (pos + 1) (tvStr cur.value) with
      | .err e => .err e
      | .gas => .gas
      | .ok name pos =>
        if (currentToken t pos).type = .LPAREN then
          let afterArgs :=
            if (currentToken t (pos + 1)).type ≠ .RPAREN then
              match parseExpression fuel t (pos + 1) with
              | .err e => PRes.err e
              | .gas => PRes.gas
              | .ok a0 pos => parseCallArgsLoop fuel t pos [a0]
            else PRes.ok [] (pos + 1)
          match afterArgs with
          | .err e => .err e
          | .gas => .gas
          | .ok args pos =>
            match expect t pos .RPAREN with
            | .error e => .err e
            | .ok (_, pos) => .ok (.call name args) pos
        else .ok (.var name) pos
    else if cur.type = .LPAREN then
      match parseExpression fuel t (pos + 1) with
      | .err e => .err e
      | .gas => .gas
      | .ok expr pos =>
        match expect t pos .RPAREN with
        | .error e => .err e
        | .ok (_, pos) => .ok expr pos
    else if cur.type = .LBRACKET then
      let afterElems :=
        if (currentToken t (pos + 1)).type ≠ .RBRACKET then
          match parseExpression fuel t (pos + 1) with
          | .err e => PRes.err e
          | .gas => PRes.gas
          | .ok e0 pos => parseListElemsLoop fuel t pos [e0]
        else PRes.ok [] (pos + 1)
      match afterElems with
      | .err e => .err e
      | .gas => .gas
      | .ok elems pos =>
        match expect t pos .RBRACKET with
        | .error e => .err e
        | .ok (_, pos) => .ok (.listLiteral elems) pos
    else if cur.type = .LBRACE then
      let afterPairs :=
        if (currentToken t (pos + 1)).type ≠ .RBRACE then
          match parseExpression fuel t (pos + 1) with
          | .err e => PRes.err e
          | .gas => PRes.gas
          | .ok key pos =>
            match expect t pos .COLON with
            | .error e => PRes.err e
            | .ok (_, pos) =>
              match parseExpression fuel t pos with
              | .err e => PRes.err e
              | .gas => PRes.gas
              | .ok value pos => parseDictPairsLoop fuel t pos [(key, value)]
        else PRes.ok [] (pos + 1)
      match afterPairs with
      | .err e => .err e
      | .gas => .gas
      | .ok pairs pos =>
        match expect t pos .RBRACE with
        | .error e => .err e
        | .ok (_, pos) => .ok (.dictLiteral pairs) pos
    else
      .err (.syntaxError ("Unexpected token: " ++ tyName cur.type
        ++ " at line " ++ toString cur.line))
termination_by structural fuel

end

/-! ## Interpreter (`src/simple_script/interpreter.py`) -/

/-- The `Tool` dataclass of tools.py, restricted to the fields the
interpreter reads (`name`, `func`; `description` kept for completeness,
the parameter metadata is never consulted).  The native callable `func`
is modelled as an index into a host table. -/
structure Tool where
  name : String
  func : Nat
  description : String := ""
  deriving DecidableEq, Repr

/-- Runtime values.  Python `float` is idealised as `Rat` (true division of
the integers a script can write is exact); host tools are assumed to return
values of these shapes (mapping values cannot be built by the embedded
interpreter itself, and none of the verified scenarios uses one). -/
inductive Value where
  | none
  | int (n : Int)
  | float (q : Rat)
  | bool (b : Bool)
  | str (s : String)
  | list (xs : List Value)
  | tool (t : Tool)
  deriving Repr

/-- The user-defined `FunctionDef` node as stored in the function table. -/
structure FunctionDef where
  name : String
  parameters : List String
  body : List Stmt
  deriving Repr

/-- Python-dict lookup on an association list (first match; `setk` keeps
keys unique, so this is ordinary dict lookup). -/
def getk {α : Type} : List (String × α) → String → Option α
  | [], _ => Option.none
  | (k, v) :: rest, key => if k = key then some v else getk rest key

/-- Python-dict assignment: overwrite the existing entry or append. -/
def setk {α : Type} : List (String × α) → String → α → List (String × α)
  | [], key, v => [(key, v)]
  | (k, w) :: rest, key, v =>
    if k = key then (k, v) :: rest else (k, w) :: setk rest key v

/-- Interpreter instance state (`self.tool_map`, `self.builtin_map`,
`self.env`, `self.functions`, `self.last_value`). -/
structure IState where
  tool_map : List (String × Tool)
  builtin_map : List (String × Tool)
  env : List (String × Value)
  functions : List (String × FunctionDef)
  last_value : Value
  deriving Repr

/-- The dotted path `Interpreter._build_tool_maps` derives from a non-builtin
tool name: split on `_`, the last part is the function name, the rest joined
with `.` is the module path, and the key is `module_path + "." + func_name`. -/
def toolFullPath (name : String) : String :=
  let parts := (splitOnChar '_' name.toList).map String.mk
  let func_name := parts.getLastD ""
  let module_path := joinSep "." parts.dropLast
  module_path ++ "." ++ func_name

/-- `Interpreter._build_tool_maps`.  `startswith`/prefix-stripping are done
on the character lists so that they compute by structural recursion. -/
def buildToolMaps (tools : List Tool) :
    List (String × Tool) × List (String × Tool) :=
  tools.foldl
    (fun maps tool =>
      if "builtins_".toList.isPrefixOf tool.name.toList then
        (maps.1,
         setk maps.2 (String.mk (tool.name.toList.drop "builtins_".length))
           tool)
      else
        (setk maps.1 (toolFullPath tool.name) tool, maps.2))
    ([], [])

/-- `Interpreter.__init__`. -/
def mkInterpreter (tools : List Tool) : IState :=
  { tool_map := (buildToolMaps tools).1,
    builtin_map := (buildToolMaps tools).2,
    env := [], functions := [], last_value := .none }

/-- `Interpreter._is_truthy`. -/
def isTruthy : Value → Bool
  | .bool b => b
  | .int n => decide (n ≠ 0)
  | .float q => decide (q ≠ 0)
  | .none => false
  | _ => true

/-- Numeric view of a value (`bool` is a numeric type in Python). -/
def numVal? : Value → Option Rat
  | .int n => some (n : Rat)
  | .float q => some q
  | .bool b => some (if b then 1 else 0)
  | _ => Option.none

/-- Integer view of a value (`int` or `bool`). -/
def intVal? : Value → Option Int
  | .int n => some n
  | .bool b => some (if b then 1 else 0)
  | _ => Option.none

mutual

/-- Python `==` on runtime values (numeric cross-type equality, structural
on strings/lists/None; `Tool` dataclass equality is field equality). -/
def pyEqB : Value → Value → Bool
  | .none, .none => true
  | .str s, .str t => s = t
  | .tool t1, .tool t2 => t1 = t2
  | .list l1, .list l2 => pyEqList l1 l2
  | a, b =>
    match numVal? a, numVal? b with
    | some x, some y => x = y
    | _, _ => false

def pyEqList : List Value → List Value → Bool
  | [], [] => true
  | a :: as1, b :: bs => pyEqB a b && pyEqList as1 bs
  | _, _ => false

end

/-- Python `+` on runtime values. -/
def pyAdd (a b : Value) : Except Err Value :=
  match intVal? a, intVal? b with
  | some x, some y => .ok (.int (x + y))
  | _, _ =>
    match numVal? a, numVal? b with
    | some x, some y => .ok (.float (x + y))
    | _, _ =>
      match a, b with
      | .str s, .str t => .ok (.str (s ++ t))
      | .list l1, .list l2 => .ok (.list (l1 ++ l2))
      | _, _ => .error (.typeError "unsupported operand type(s) for +")

/-- Python `-` on runtime values. -/
def pySub (a b : Value) : Except Err Value :=
  match intVal? a, intVal? b with
  | some x, some y => .ok (.int (x - y))
  | _, _ =>
    match numVal? a, numVal? b with
    | some x, some y => .ok (.float (x - y))
    | _, _ => .error (.typeError "unsupported operand type(s) for -")

/-- Python `*` on runtime values (including sequence repetition). -/
def pyMul (a b : Value) : Except Err Value :=
  match intVal? a, intVal? b with
  | some x, some y => .ok (.int (x * y))
  | _, _ =>
    match numVal? a, numVal? b with
    | some x, some y => .ok (.float (x * y))
    | _, _ =>
      match a, b with
      | .str s, .int n => .ok (.str (String.join (List.replicate n.toNat s)))
      | .int n, .str s => .ok (.str (String.join (List.replicate n.toNat s)))
      | .list l, .int n => .ok (.list (List.flatten (List.replicate n.toNat l)))
      | .int n, .list l => .ok (.list (List.flatten (List.replicate n.toNat l)))
      | _, _ => .error (.typeError "unsupported operand type(s) for *")

/-- Python `/` (true division: always a float, error on zero). -/
def pyDiv (a b : Value) : Except Err Value :=
  match numVal? a, numVal? b with
  | some x, some y =>
    if y = 0 then .error (.zeroDivisionError "division by zero")
    else .ok (.float (x / y))
  | _, _ => .error (.typeError "unsupported operand type(s) for /")

/-- Python `<` (numeric or string; other orderings are not exercised by the
embedded fragment and are mapped to the TypeError Python raises for
unrelated types). -/
def pyLtB (a b : Value) : Except Err Bool :=
  match numVal? a, numVal? b with
  | some x, some y => .ok (decide (x < y))
  | _, _ =>
    match a, b with
    | .str s, .str t => .ok (decide (s < t))
    | _, _ => .error (.typeError "'<' not supported between operands")

/-- Python `>`. -/
def pyGtB (a b : Value) : Except Err Bool :=
  match numVal? a, numVal? b with
  | some x, some y => .ok (decide (y < x))
  | _, _ =>
    match a, b with
    | .str s, .str t => .ok (decide (t < s))
    | _, _ => .error (.typeError "'>' not supported between operands")

/-- The operator dispatch of `Interpreter._evaluate_binary_op` (operand
evaluation happens in `evaluateExpression`). -/
def applyBinOp (op : String) (l r : Value) : Except Err Value :=
  if op = "+" then pyAdd l r
  else if op = "-" then pySub l r
  else if op = "*" then pyMul l r
  else if op = "/" then pyDiv l r
  else if op = "==" then .ok (.bool (pyEqB l r))
  else if op = "<" then
    match pyLtB l r with
    | .ok b => .ok (.bool b)
    | .error e => .error e
  else if op = ">" then
    match pyGtB l r with
    | .ok b => .ok (.bool b)
    | .error e => .error e
  else .error (.runtimeError ("Unknown operator: " ++ op))

/-- Interpreter outcomes: a value, a raised error, fuel exhaustion of the
loop model, or `hang` — a genuine Python divergence (the lexer spinning at
end of input).  The state is paired with every outcome because a Python
exception leaves `self` with all mutations made so far. -/
inductive Outcome (α : Type) where
  | ok (a : α)
  | err (e : Err)
  | gas
  | hang
  deriving Repr

abbrev IRes (α : Type) := IState × Outcome α

/-- `isinstance(stmt, Return)` in `Interpreter._call_user_function`. -/
def isRet : Stmt → Bool
  | .ret _ => true
  | _ => false

/-- The parameter-binding loop of `Interpreter._call_user_function`
(`for param, arg in zip(...): self.env[param] = arg`). -/
def bindParams : List String → List Value → List (String × Value) →
    List (String × Value)
  | p :: ps, a :: rest, env => bindParams ps rest (setk env p a)
  | _, _, env => env

/-- The name-binding loop of `Interpreter._execute_import` over the
selective-import names. -/
def importNames (module_path : String) :
    List String → IState → IRes Value
  | [], st => (st, .ok .none)
  | name :: rest, st =>
    let full_path := module_path ++ "." ++ name
    match getk st.tool_map full_path with
    | some tool =>
      importNames module_path rest
        { st with env := setk st.env name (.tool tool) }
    | Option.none =>
      (st, .err (.runtimeError ("Tool '" ++ full_path ++ "' not found")))

/-- `Interpreter._execute_import`.  The alias form stores `names = None`,
and the Python body iterates `node.names` unconditionally, so
`import X as Y` raises `TypeError: 'NoneType' object is not iterable`;
`node.alias` is never read. -/
def executeImport (module_path : String) (names : Option (List String))
    (_aliasName : Option String) (st : IState) : IRes Value :=
  match names with
  | Option.none => (st, .err (.typeError "'NoneType' object is not iterable"))
  | some ns => importNames module_path ns st

section Interp

variable (host : Nat → List Value → Except Err Value)

mutual

/-- `Interpreter._execute_statement`. -/
def executeStatement (fuel : Nat) (node : Stmt) (st : IState) : IRes Value :=
  match fuel with
  | 0 => (st, .gas)
  | fuel + 1 =>
    match node with
    | .importStmt mp names al => executeImport mp names al st
    | .assignment name value =>
      -- `Interpreter._execute_assignment`
      match evaluateExpression fuel value st with
      | (st, .ok v) => ({ st with env := setk st.env name v }, .ok v)
      | other => other
    | .ifStmt cond thenB elseB => executeIf fuel cond thenB elseB st
    | .whileStmt cond body => executeWhile fuel cond body st .none
    | .functionDef name params body =>
      -- `Interpreter._execute_function_def`
      ({ st with functions := setk st.functions name ⟨name, params, body⟩ },
       .ok .none)
    | .ret value => evaluateExpression fuel value st
    | .exprStmt e => evaluateExpression fuel e st
termination_by structural fuel


/-- `Interpreter._execute_if`. -/
def executeIf (fuel : Nat) (cond : Expr) (thenB elseB : List Stmt)
    (st : IState) : IRes Value :=
  match fuel with
  | 0 => (st, .gas)
  | fuel + 1 =>
    match evaluateExpression fuel cond st with
    | (st, .ok c) =>
      if isTruthy c then executeBlock fuel thenB st .none
      else executeBlock fuel elseB st .none
    | other => other
termination_by structural fuel


/-- The `result = None; for stmt in block: result = execute(stmt)` loop
shared by `_execute_if` (both branches) and `_execute_while` (one pass). -/
def executeBlock (fuel : Nat) (stmts : List Stmt) (st : IState)
    (result : Value) : IRes Value :=
  match fuel with
  | 0 => (st, .gas)
  | fuel + 1 =>
    match stmts with
    | [] => (st, .ok result)
    | s :: rest =>
      match executeStatement fuel s st with
      | (st, .ok v) => executeBlock fuel rest st v
      | other => other
termination_by structural fuel


/-- `Interpreter._execute_while` (the running `result` threads across
iterations; the loop yields `None` if it never runs). -/
def executeWhile (fuel : Nat) (cond : Expr) (body : List Stmt)
    (st : IState) (result : Value) : IRes Value :=
  match fuel with
  | 0 => (st, .gas)
  | fuel + 1 =>
    match evaluateExpression fuel cond st with
    | (st, .ok c) =>
      if isTruthy c then
        match executeBlock fuel body st result with
        | (st, .ok r) => executeWhile fuel cond body st r
        | other => other
      else (st, .ok result)
    | other => other
termination_by structural fuel


/-- `Interpreter._evaluate_expression`.  interpreter.py has no case for
`DictLiteral`, so a dict literal falls through to the catch-all `else` and
raises `Unknown expression type: ...`. -/
def evaluateExpression (fuel : Nat) (node : Expr) (st : IState) :
    IRes Value :=
  match fuel with
  | 0 => (st, .gas)
  | fuel + 1 =>
    match node with
    | .number n => (st, .ok (.int n))
    | .string s => (st, .ok (.str s))
    | .var name =>
      match getk st.env name with
      | some v => (st, .ok v)
      | Option.none =>
        (st, .err (.runtimeError ("Variable '" ++ name ++ "' not defined")))
    | .binaryOp l op r =>
      -- `Interpreter._evaluate_binary_op`
      match evaluateExpression fuel l st with
      | (st, .ok lv) =>
        match evaluateExpression fuel r st with
        | (st, .ok rv) =>
          match applyBinOp op lv rv with
          | .ok v => (st, .ok v)
          | .error e => (st, .err e)
        | other => other
      | other => other
    | .call fn args => evaluateCall fuel fn args st
    | .listLiteral elems =>
      match evalExprList fuel elems st [] with
      | (st, .ok vs) => (st, .ok (.list vs))
      | (st, .err e) => (st, .err e)
      | (st, .gas) => (st, .gas)
      | (st, .hang) => (st, .hang)
    | .dictLiteral _ =>
      (st, .err (.runtimeError "Unknown expression type: DictLiteral"))
termination_by structural fuel


/-- The left-to-right evaluation of an expression list (the comprehension
`[self._evaluate_expression(e) for e in ...]` used for call arguments and
list-literal elements). -/
def evalExprList (fuel : Nat) (es : List Expr) (st : IState)
    (acc : List Value) : IRes (List Value) :=
  match fuel with
  | 0 => (st, .gas)
  | fuel + 1 =>
    match es with
    | [] => (st, .ok acc)
    | e :: rest =>
      match evaluateExpression fuel e st with
      | (st, .ok v) => evalExprList fuel rest st (acc ++ [v])
      | (st, .err e2) => (st, .err e2)
      | (st, .gas) => (st, .gas)
      | (st, .hang) => (st, .hang)
termination_by structural fuel


/-- `Interpreter._evaluate_call`: arguments first, then the resolution
order user-function / environment binding (must be a Tool) / builtin /
"not defined". -/
def evaluateCall (fuel : Nat) (fn : String) (args : List Expr)
    (st : IState) : IRes Value :=
  match fuel with
  | 0 => (st, .gas)
  | fuel + 1 =>
    match evalExprList fuel args st [] with
    | (st, .ok argv) =>
      match getk st.functions fn with
      | some _ => callUserFunction fuel fn argv st
      | Option.none =>
        match getk st.env fn with
        | some obj =>
          match obj with
          | .tool tl =>
            match host tl.func argv with
            | .ok v => (st, .ok v)
            | .error e => (st, .err e)
          | _ =>
            (st, .err (.runtimeError ("'" ++ fn ++ "' is not callable")))
        | Option.none =>
          match getk st.builtin_map fn with
          | some tl =>
            match host tl.func argv with
            | .ok v => (st, .ok v)
            | .error e => (st, .err e)
          | Option.none =>
            (st, .err (.runtimeError ("Function '" ++ fn ++ "' not defined")))
    | (st, .err e) => (st, .err e)
    | (st, .gas) => (st, .gas)
    | (st, .hang) => (st, .hang)
termination_by structural fuel


/-- `Interpreter._call_user_function`: arity check, snapshot the
environment, bind parameters, run the body stopping at a top-level
`Return`, then restore the snapshot.  On an error inside the body the
Python restore line is never reached, so the mutated state is kept. -/
def callUserFunction (fuel : Nat) (name : String) (args : List Value)
    (st : IState) : IRes Value :=
  match fuel with
  | 0 => (st, .gas)
  | fuel + 1 =>
    match getk st.functions name with
    | Option.none => (st, .err (.runtimeError ("KeyError: " ++ name)))
    | some fd =>
      if args.length ≠ fd.parameters.length then
        (st, .err (.runtimeError ("Function '" ++ name ++ "' expects "
          ++ toString fd.parameters.length ++ " arguments, got "
          ++ toString args.length)))
      else
        match execBody fuel fd.body
            { st with env := bindParams fd.parameters args st.env }
            .none with
        | (st2, .ok result) => ({ st2 with env := st.env }, .ok result)
        | other => other
termination_by structural fuel


/-- The body loop of `_call_user_function`: like `executeBlock` but with
the `if isinstance(stmt, Return): break` check after each statement. -/
def execBody (fuel : Nat) (body : List Stmt) (st : IState)
    (result : Value) : IRes Value :=
  match fuel with
  | 0 => (st, .gas)
  | fuel + 1 =>
    match body with
    | [] => (st, .ok result)
    | s :: rest =>
      match executeStatement fuel s st with
      | (st, .ok v) => if isRet s then (st, .ok v) else execBody fuel rest st v
      | other => other
termination_by structural fuel

end

/-- The statement loop of `Interpreter.evaluate`
(`for statement in ast: self.last_value = self._execute_statement(...)`),
returning `self.last_value`. -/
def runStatements (fuel : Nat) : List Stmt → IState → IRes Value
  | [], st => (st, .ok st.last_value)
  | s :: rest, st =>
    match executeStatement host fuel s st with
    | (st, .ok v) => runStatements fuel rest { st with last_value := v }
    | other => other

/-- `Interpreter.evaluate`: lex, parse, then execute all statements. -/
def evaluate (fuel : Nat) (script : String) (st : IState) : IRes Value :=
  match tokenize script.toList with
  | none => (st, .hang)
  | some (.error e) => (st, .err e)
  | some (.ok toks) =>
    match parseProgram fuel toks 0 with
    | .err e => (st, .err e)
    | .gas => (st, .gas)
    | .ok ast _ => runStatements host fuel ast st

end Interp

/-! ## Concrete host scenarios used by witnesses and counterexamples -/

/-- A host table with no callables (for scripts that invoke no tool). -/
def hostNone : Nat → List Value → Except Err Value :=
  fun _ _ => .error (.runtimeError "no host")

/-- Example host table: 0 adds two ints, 1 is the native of a builtin
`print`, 2 is the native of a tool `io_print`, 3 is the native of a tool
`m_a`. -/
def exHost : Nat → List Value → Except Err Value :=
  fun i args =>
    match i, args with
    | 0, [.int a, .int b] => .ok (.int (a + b))
    | 1, _ => .ok (.str "builtin")
    | 2, _ => .ok (.str "imported")
    | 3, _ => .ok Value.none
    | _, _ => .error (.runtimeError "bad host call")

/-- Example tool catalog for the scenarios. -/
def exTools : List Tool :=
  [Tool.mk "math_operations_plus" 0 "",
   Tool.mk "builtins_print" 1 "",
   Tool.mk "io_print" 2 "",
   Tool.mk "m_a" 3 ""]

/-- Fresh interpreter over `exTools`. -/
def exState : IState := mkInterpreter exTools

/-! ## Claim scenarios: concrete token lists and ASTs -/

/-- A staging lemma for concrete runs: once the token list and AST of a
script are fixed, `evaluate` is the statement loop on that AST. -/
theorem evaluate_eq_of (hostX : Nat → List Value → Except Err Value)
    (fuel : Nat) (script : String) (st : IState) (toks : List Token)
    (ast : List Stmt) (pos : Nat)
    (h1 : tokenize script.toList = some (.ok toks))
    (h2 : parseProgram fuel toks 0 = .ok ast pos) :
    evaluate hostX fuel script st = runStatements hostX fuel ast st := by
  unfold evaluate
  simp only [h1, h2]

/-- Tokens of the dict-literal script from the repo test
`test_interpreter_dict_list_as_key_error`. -/
def c1toks : List Token :=
  [Token.mk .LBRACE (.str "\x7b") 1, Token.mk .LBRACKET (.str "[") 1,
   Token.mk .NUMBER (.num 1) 1, Token.mk .COMMA (.str ",") 1,
   Token.mk .NUMBER (.num 2) 1, Token.mk .RBRACKET (.str "]") 1,
   Token.mk .COLON (.str ":") 1, Token.mk .STRING (.str "value") 1,
   Token.mk .RBRACE (.str "\x7d") 1, Token.mk .EOF .none 1]

/-- AST of the dict-literal script. -/
def c1ast : List Stmt :=
  [Stmt.exprStmt (.dictLiteral
    [(.listLiteral [.number 1, .number 2], .string "value")])]

/-- Tokens of `import math.operations as ops` followed by a dotted call. -/
def c2toks : List Token :=
  [Token.mk .IMPORT (.str "import") 1, Token.mk .IDENTIFIER (.str "math") 1,
   Token.mk .DOT (.str ".") 1, Token.mk .IDENTIFIER (.str "operations") 1,
   Token.mk .AS (.str "as") 1, Token.mk .IDENTIFIER (.str "ops") 1,
   Token.mk .NEWLINE (.str "\n") 1, Token.mk .IDENTIFIER (.str "ops") 2,
   Token.mk .DOT (.str ".") 2, Token.mk .IDENTIFIER (.str "plus") 2,
   Token.mk .LPAREN (.str "(") 2, Token.mk .NUMBER (.num 1) 2,
   Token.mk .COMMA (.str ",") 2, Token.mk .NUMBER (.num 2) 2,
   Token.mk .RPAREN (.str ")") 2, Token.mk .EOF .none 2]

/-- AST of the alias-import script. -/
def c2ast : List Stmt :=
  [Stmt.importStmt "math.operations" Option.none (some "ops"),
   Stmt.exprStmt (.call "ops.plus" [.number 1, .number 2])]

/-- C1: Evaluating a dict literal does not follow the spec: interpreter.py
has no `DictLiteral` case in `_evaluate_expression`, so EVERY dict literal
(well-formed or not) falls into the catch-all and raises
`RuntimeError("Unknown expression type: ...")` — there is no
"key must be hashable" check and duplicate keys are never processed.
First conjunct: the general behaviour on any `DictLiteral` node; second
conjunct: the end-to-end run of the repository's own test input
`{[1, 2]: "value"}` (which the test suite expects to mention key/hashable). -/
theorem c1_dict_literal_evaluation_is_unknown_expression_error :
    (∀ (hostX : Nat → List Value → Except Err Value) (fuel : Nat)
       (pairs : List (Expr × Expr)) (st : IState),
       evaluateExpression hostX (fuel + 1) (.dictLiteral pairs) st =
         (st, .err (.runtimeError "Unknown expression type: DictLiteral")))
  ∧ (evaluate hostNone 100 "\x7b[1, 2]: \"value\"\x7d"
       (mkInterpreter [])).2 =
       .err (.runtimeError "Unknown expression type: DictLiteral") := by
  constructor
  · intro hostX fuel pairs st; rfl
  · rw [evaluate_eq_of hostNone 100 "\x7b[1, 2]: \"value\"\x7d"
        (mkInterpreter []) c1toks c1ast 9 rfl rfl]; rfl

/-- C2: `import X as Y` does not bind the alias: `_execute_import` iterates
`node.names`, which is `None` for the alias form, so the statement raises
`TypeError: 'NoneType' object is not iterable` (and `node.alias` is never
read; a dotted call `Y.func(...)` is never reached).  First conjunct: the
general behaviour of executing any alias-form ImportStatement; second
conjunct: the end-to-end run of `import math.operations as ops` followed by
`ops.plus(1, 2)` against a registry that does contain
`math.operations.plus`. -/
theorem c2_module_alias_import_raises_type_error :
    (∀ (hostX : Nat → List Value → Except Err Value) (fuel : Nat)
       (mp al : String) (st : IState),
       executeStatement hostX (fuel + 1)
           (.importStmt mp Option.none (some al)) st =
         (st, .err (.typeError "'NoneType' object is not iterable")))
  ∧ (evaluate exHost 100 "import math.operations as ops\nops.plus(1, 2)"
       exState).2 =
       .err (.typeError "'NoneType' object is not iterable") := by
  constructor
  · intro hostX fuel mp al st; rfl
  · rw [evaluate_eq_of exHost 100 "import math.operations as ops\nops.plus(1, 2)"
        exState c2toks c2ast 15 rfl rfl]; rfl

/-- C6: a user-defined function call that completes successfully restores
the caller's environment exactly: parameters and assignments made by the
body do not leak.  The statement quantifies over every state, so it covers
nested and recursive calls (each nested call is itself an instance). -/
theorem c6_user_call_restores_environment :
    ∀ (hostX : Nat → List Value → Except Err Value) (fuel : Nat)
      (name : String) (args : List Value) (st st' : IState) (v : Value),
      callUserFunction hostX fuel name args st = (st', .ok v) →
      st'.env = st.env := by
  intro hostX fuel name args st st' v h
  match fuel with
  | 0 => simp [callUserFunction] at h
  | fuel + 1 =>
    simp only [callUserFunction] at h
    split at h
    · simp at h
    · split at h
      · simp at h
      · split at h
        · rw [Prod.mk.injEq] at h
          obtain ⟨h1, _⟩ := h
          subst h1
          rfl
        · rename_i hno
          exact (hno st' v h).elim

/-- Environment and function table for the C6 witness: an outer `x` and a
function `f(x)` that assigns its parameter and returns it. -/
def c6State : IState :=
  { tool_map := [], builtin_map := [], env := [("x", .int 1)],
    functions := [("f", ⟨"f", ["x"],
      [Stmt.assignment "x" (.number 2), Stmt.ret (.var "x")]⟩)],
    last_value := .none }

theorem c6_user_call_restores_environment_witness :
    ((callUserFunction hostNone 50 "f" [Value.int 0] c6State).1).env =
      c6State.env :=
  c6_user_call_restores_environment hostNone 50 "f" [Value.int 0] c6State
    ((callUserFunction hostNone 50 "f" [Value.int 0] c6State).1)
    (Value.int 2) rfl

/-- Tokens of the nested-return script. -/
def c4toks : List Token :=
  [Token.mk .DEF (.str "def") 1, Token.mk .IDENTIFIER (.str "f") 1,
   Token.mk .LPAREN (.str "(") 1, Token.mk .IDENTIFIER (.str "x") 1,
   Token.mk .RPAREN (.str ")") 1, Token.mk .COLON (.str ":") 1,
   Token.mk .NEWLINE (.str "\n") 1, Token.mk .INDENT .none 2,
   Token.mk .IF (.str "if") 2, Token.mk .IDENTIFIER (.str "x") 2,
   Token.mk .COLON (.str ":") 2, Token.mk .NEWLINE (.str "\n") 2,
   Token.mk .INDENT .none 3, Token.mk .RETURN (.str "return") 3,
   Token.mk .NUMBER (.num 1) 3, Token.mk .NEWLINE (.str "\n") 3,
   Token.mk .DEDENT .none 4, Token.mk .RETURN (.str "return") 4,
   Token.mk .NUMBER (.num 2) 4, Token.mk .NEWLINE (.str "\n") 4,
   Token.mk .DEDENT .none 5, Token.mk .IDENTIFIER (.str "f") 5,
   Token.mk .LPAREN (.str "(") 5, Token.mk .NUMBER (.num 1) 5,
   Token.mk .RPAREN (.str ")") 5, Token.mk .EOF .none 5]

/-- AST of the nested-return script: `def f(x): if x: return 1 / return 2`,
then `f(1)`. -/
def c4ast : List Stmt :=
  [Stmt.functionDef "f" ["x"]
    [Stmt.ifStmt (.var "x") [Stmt.ret (.number 1)] [],
     Stmt.ret (.number 2)],
   Stmt.exprStmt (.call "f" [.number 1])]

/-- C4 counterexample: in
`def f(x):\n    if x:\n        return 1\n    return 2\nf(1)` the `return 1`
nested in the `if` is executed (x is truthy) but does NOT stop the body:
the subsequent top-level `return 2` runs and the call returns 2, not the
nested Return's value 1. -/
theorem c4_nested_return_counterexample :
    (evaluate hostNone 100
        "def f(x):\n    if x:\n        return 1\n    return 2\nf(1)"
        (mkInterpreter [])).2 = .ok (.int 2)
  ∧ (Outcome.ok (Value.int 2) : Outcome Value) ≠ .ok (.int 1) := by
  constructor
  · rw [evaluate_eq_of hostNone 100
        "def f(x):\n    if x:\n        return 1\n    return 2\nf(1)"
        (mkInterpreter []) c4toks c4ast 25 rfl rfl]
    rfl
  · intro h
    injection h with h1
    injection h1 with h2
    exact absurd h2 (by decide)

/-- C4 (amended): the body of a user function stops early exactly at a
TOP-LEVEL `Return` statement: statements after it are never executed (the
run is identical to the run of the body truncated after that Return), and
the segment ending in the Return yields the Return expression's result,
discarding the running value.  A Return nested inside an if/while block
does not trigger the early stop (see the counterexample). -/
theorem c4_top_level_return_short_circuits :
    (∀ (hostX : Nat → List Value → Except Err Value) (fuel : Nat)
       (pre : List Stmt) (e : Expr) (rest : List Stmt) (st : IState)
       (v0 : Value),
       (∀ s, s ∈ pre → isRet s = false) →
       execBody hostX fuel (pre ++ Stmt.ret e :: rest) st v0 =
         execBody hostX fuel (pre ++ [Stmt.ret e]) st v0)
  ∧ (∀ (hostX : Nat → List Value → Except Err Value) (fuel : Nat)
       (e : Expr) (st : IState) (v0 : Value),
       execBody hostX (fuel + 1) [Stmt.ret e] st v0 =
         executeStatement hostX fuel (Stmt.ret e) st) := by
  constructor
  · intro hostX fuel pre e rest st v0 hNoRet
    induction pre generalizing fuel st v0 with
    | nil =>
      cases fuel with
      | zero => rfl
      | succ f =>
        simp only [List.nil_append, execBody]
        rcases hx : executeStatement hostX f (Stmt.ret e) st with ⟨st2, out⟩
        cases out <;> rfl
    | cons p pre ih =>
      have hp : isRet p = false := hNoRet p (by simp)
      have hpre : ∀ s, s ∈ pre → isRet s = false := by
        intro s hs; exact hNoRet s (by simp [hs])
      cases fuel with
      | zero => rfl
      | succ f =>
        simp only [List.cons_append, execBody]
        rcases hx : executeStatement hostX f p st with ⟨st2, out⟩
        cases out with
        | ok v =>
          rw [hp]
          simp only [Bool.false_eq_true, if_false]
          exact ih f st2 v hpre
        | err e2 => rfl
        | gas => rfl
        | hang => rfl
  · intro hostX fuel e st v0
    simp only [execBody]
    rcases hx : executeStatement hostX fuel (Stmt.ret e) st with ⟨st2, out⟩
    cases out <;> rfl

/-- Witness for the amended C4 theorem: a concrete body
`y = 1; return 2; return 9` where the statements after the top-level
Return are discarded. -/
theorem c4_top_level_return_short_circuits_witness :
    execBody hostNone 50
        ([Stmt.assignment "y" (.number 1)] ++
          Stmt.ret (.number 2) :: [Stmt.ret (.number 9)])
        (mkInterpreter []) .none =
      execBody hostNone 50
        ([Stmt.assignment "y" (.number 1)] ++ [Stmt.ret (.number 2)])
        (mkInterpreter []) .none :=
  c4_top_level_return_short_circuits.1 hostNone 50
    [Stmt.assignment "y" (.number 1)] (.number 2) [Stmt.ret (.number 9)]
    (mkInterpreter []) .none
    (by intro s hs; simp at hs; subst hs; rfl)

/-- Tokens of `x = 1` followed by the partially-failing import. -/
def c7toks : List Token :=
  [Token.mk .IDENTIFIER (.str "x") 1, Token.mk .EQUAL (.str "=") 1,
   Token.mk .NUMBER (.num 1) 1, Token.mk .NEWLINE (.str "\n") 1,
   Token.mk .FROM (.str "from") 2, Token.mk .IDENTIFIER (.str "m") 2,
   Token.mk .IMPORT (.str "import") 2, Token.mk .IDENTIFIER (.str "a") 2,
   Token.mk .COMMA (.str ",") 2, Token.mk .IDENTIFIER (.str "b") 2,
   Token.mk .EOF .none 2]

/-- AST of that script. -/
def c7ast : List Stmt :=
  [Stmt.assignment "x" (.number 1),
   Stmt.importStmt "m" (some ["a", "b"]) Option.none]

/-- Tokens/AST of the one-statement prefix `x = 1`. -/
def c7toksPre : List Token :=
  [Token.mk .IDENTIFIER (.str "x") 1, Token.mk .EQUAL (.str "=") 1,
   Token.mk .NUMBER (.num 1) 1, Token.mk .EOF .none 1]

def c7astPre : List Stmt := [Stmt.assignment "x" (.number 1)]

/-- C7 counterexample: in `x = 1\nfrom m import a, b` (where only tool
`m_a` exists) the failing import statement binds `a` before raising on
`b`, so the post-failure environment is NOT exactly the state produced by
the statements that succeeded (`x = 1` alone): it additionally holds the
failing statement's partial binding of `a`. -/
theorem c7_partial_import_counterexample :
    (evaluate exHost 100 "x = 1\nfrom m import a, b" exState).2 =
        .err (.runtimeError "Tool 'm.b' not found")
  ∧ (evaluate exHost 100 "x = 1\nfrom m import a, b" exState).1.env =
        [("x", .int 1), ("a", .tool (Tool.mk "m_a" 3 ""))]
  ∧ (evaluate exHost 100 "x = 1" exState).1.env = [("x", .int 1)]
  ∧ ([("x", Value.int 1), ("a", Value.tool (Tool.mk "m_a" 3 ""))]
       ≠ [("x", Value.int 1)]) := by
  refine ⟨?_, ?_, ?_, ?_⟩
  · rw [evaluate_eq_of exHost 100 "x = 1\nfrom m import a, b" exState
        c7toks c7ast 10 rfl rfl]
    rfl
  · rw [evaluate_eq_of exHost 100 "x = 1\nfrom m import a, b" exState
        c7toks c7ast 10 rfl rfl]
    rfl
  · rw [evaluate_eq_of exHost 100 "x = 1" exState c7toksPre c7astPre 3
        rfl rfl]
    rfl
  · intro h
    have := congrArg List.length h
    simp at this

/-- C7 (amended): when a statement of an `evaluate()` run raises, the
remaining statements are not executed, and the instance state is exactly
the state at the failure point: every effect of the succeeded statements
persists (no rollback), together with whatever partial effects the failing
statement itself made before raising. -/
theorem c7_error_keeps_partial_state_no_rollback :
    ∀ (hostX : Nat → List Value → Except Err Value) (fuel : Nat)
      (pre : List Stmt) (bad : Stmt) (rest : List Stmt)
      (st st1 : IState) (v1 : Value) (st2 : IState) (e : Err),
      runStatements hostX fuel pre st = (st1, .ok v1) →
      executeStatement hostX fuel bad st1 = (st2, .err e) →
      runStatements hostX fuel (pre ++ bad :: rest) st = (st2, .err e) := by
  intro hostX fuel pre bad rest st st1 v1 st2 e h1 h2
  induction pre generalizing st with
  | nil =>
    simp only [runStatements] at h1
    rw [Prod.mk.injEq] at h1
    obtain ⟨h1a, _⟩ := h1
    subst h1a
    simp only [List.nil_append, runStatements]
    rw [h2]
  | cons p pre ih =>
    simp only [runStatements] at h1
    rcases hx : executeStatement hostX fuel p st with ⟨stp, outp⟩
    rw [hx] at h1
    cases outp with
    | ok v =>
      simp only [List.cons_append, runStatements]
      rw [hx]
      exact ih _ h1
    | err e2 => simp at h1
    | gas => simp at h1
    | hang => simp at h1

/-- Witness for the amended C7 theorem at the concrete scenario of the
counterexample. -/
theorem c7_error_keeps_partial_state_witness :
    runStatements exHost 100 (c7astPre ++
        Stmt.importStmt "m" (some ["a", "b"]) Option.none ::
          [Stmt.exprStmt (.number 7)]) exState =
      ((evaluate exHost 100 "x = 1\nfrom m import a, b" exState).1,
        .err (.runtimeError "Tool 'm.b' not found")) :=
  c7_error_keeps_partial_state_no_rollback exHost 100 c7astPre
    (Stmt.importStmt "m" (some ["a", "b"]) Option.none)
    [Stmt.exprStmt (.number 7)] exState
    ((runStatements exHost 100 c7astPre exState).1) (.int 1)
    ((evaluate exHost 100 "x = 1\nfrom m import a, b" exState).1)
    (.runtimeError "Tool 'm.b' not found") rfl rfl

/-- The last-value bookkeeping of the statement loop: a successful run
leaves `last_value` equal to the returned value. -/
theorem runStatements_ok_last_value
    (hostX : Nat → List Value → Except Err Value) (fuel : Nat) :
    ∀ (ast : List Stmt) (st st' : IState) (v : Value),
      runStatements hostX fuel ast st = (st', .ok v) →
      st'.last_value = v := by
  intro ast
  induction ast with
  | nil =>
    intro st st' v h
    simp only [runStatements] at h
    rw [Prod.mk.injEq] at h
    obtain ⟨h1, h2⟩ := h
    injection h2 with h2
    rw [← h1, ← h2]
  | cons p rest ih =>
    intro st st' v h
    simp only [runStatements] at h
    rcases hx : executeStatement hostX fuel p st with ⟨stp, outp⟩
    rw [hx] at h
    cases outp with
    | ok w => exact ih _ _ _ h
    | err e2 => simp at h
    | gas => simp at h
    | hang => simp at h

/-- The indentation-counting loop of `handle_indentation` never exits when
the whitespace run reaches the end of the input: Python's `current_char()`
returns `""` there and `"" in " \t"` is True, so the loop adds 4 and spins
forever (the `none` result). -/
theorem countIndent_all_ws_none :
    ∀ (ws : List Char), (∀ c, c ∈ ws → c = ' ' ∨ c = '\t') →
      ∀ (m : LexMeta) (level : Nat), countIndent ws m level = Option.none := by
  intro ws
  induction ws with
  | nil => intro _ m level; rfl
  | cons c l ih =>
    intro hws m level
    have hc := hws c (by simp)
    have hl : ∀ c2, c2 ∈ l → c2 = ' ' ∨ c2 = '\t' := by
      intro c2 h2; exact hws c2 (by simp [h2])
    rcases hc with rfl | rfl
    · simp only [countIndent]
      simpa using ih hl (advMeta ' ' m) (level + 1)
    · simp only [countIndent]
      simpa using ih hl (advMeta '\t' m) (level + 4)

/-- A nonempty source made only of spaces and tabs makes the lexer loop
forever: the first `handle_indentation` call hits the end-of-input spin of
its counting loop. -/
theorem tokenize_all_ws_hang :
    ∀ (ws : List Char), ws ≠ [] → (∀ c, c ∈ ws → c = ' ' ∨ c = '\t') →
      tokenize ws = Option.none := by
  intro ws hne hws
  obtain ⟨c0, cs0, hcons⟩ : ∃ c0 cs0, ws = c0 :: cs0 := by
    cases ws with
    | nil => exact absurd rfl hne
    | cons a l => exact ⟨_, _, rfl⟩
  subst hcons
  have hhi : handleIndentation (c0 :: cs0) initMeta = Option.none := by
    unfold handleIndentation
    rw [if_neg (by decide), countIndent_all_ws_none _ hws initMeta 0]
  unfold tokenize
  rw [show (c0 :: cs0).length + 1 = cs0.length + 1 + 1 from by simp]
  simp only [tokenizeLoop, hhi]

/-- C8 (amended): a script with no statements leaves the result register
alone — provided the lexer terminates: (1) if the source tokenizes and
parses to an empty statement list (as the empty source or a
whitespace-only source ending in a newline does), `evaluate` returns the
current `last_value` and leaves the state unchanged; (2) a fresh
interpreter has `last_value = None`; (3) every successful `evaluate`
stores its result in `last_value` — so an empty `evaluate` after a
successful one returns the previous call's value; but (4) a nonempty
whitespace-only source made of spaces/tabs (no newline at the end) never
returns at all: the lexer spins at end of input, because `current_char()`
is `""` there and `"" in " \t"` is True in Python. -/
theorem c8_empty_script_returns_previous_last_value :
    (∀ (hostX : Nat → List Value → Except Err Value) (fuel : Nat)
       (src : String) (st : IState) (toks : List Token) (pos : Nat),
       tokenize src.toList = some (.ok toks) →
       parseProgram fuel toks 0 = .ok [] pos →
       evaluate hostX fuel src st = (st, .ok st.last_value))
  ∧ (∀ tools, (mkInterpreter tools).last_value = .none)
  ∧ (∀ (hostX : Nat → List Value → Except Err Value) (fuel : Nat)
       (src : String) (st st' : IState) (v : Value),
       evaluate hostX fuel src st = (st', .ok v) →
       st'.last_value = v)
  ∧ (∀ (hostX : Nat → List Value → Except Err Value) (fuel : Nat)
       (src : String) (st : IState),
       src.toList ≠ [] →
       (∀ c, c ∈ src.toList → c = ' ' ∨ c = '\t') →
       evaluate hostX fuel src st = (st, .hang)) := by
  refine ⟨?_, ?_, ?_, ?_⟩
  · intro hostX fuel src st toks pos h1 h2
    unfold evaluate
    simp only [h1, h2]
    rfl
  · intro tools; rfl
  · intro hostX fuel src st st' v h
    unfold evaluate at h
    split at h
    · simp at h
    · simp at h
    · split at h
      · simp at h
      · simp at h
      · exact runStatements_ok_last_value hostX fuel _ _ _ _ h
  · intro hostX fuel src st hne hws
    unfold evaluate
    rw [tokenize_all_ws_hang src.toList hne hws]

/-- Counterexample scenario for the unamended C8: the whitespace-only
source `" "` does not return the previous `last_value` 5 — the run
diverges (and the state is exactly as the lexer left it when it started
spinning). -/
theorem c8_trailing_whitespace_hangs_counterexample :
    evaluate hostNone 100 " " (IState.mk [] [] [] [] (.int 5)) =
      (IState.mk [] [] [] [] (.int 5), .hang)
    ∧ (Outcome.hang : Outcome Value) ≠ .ok (.int 5) :=
  ⟨rfl, fun h => Outcome.noConfusion h⟩

/-- Witness: the newline-terminated whitespace-only source `" \n"` returns
the previous result 5 and changes nothing, while the source `"\t"` makes
the lexer spin forever. -/
theorem c8_empty_script_returns_previous_last_value_witness :
    (evaluate hostNone 100 " \n"
        (IState.mk [] [] [] [] (.int 5)) =
      (IState.mk [] [] [] [] (.int 5), .ok (.int 5)))
    ∧ (evaluate hostNone 100 "\t"
        (IState.mk [] [] [] [] (.int 5)) =
      (IState.mk [] [] [] [] (.int 5), .hang)) :=
  ⟨c8_empty_script_returns_previous_last_value.1 hostNone 100 " \n"
    (IState.mk [] [] [] [] (.int 5))
    [Token.mk .NEWLINE (.str "\n") 1, Token.mk .EOF .none 2] 1 rfl rfl,
   c8_empty_script_returns_previous_last_value.2.2.2 hostNone 100 "\t"
    (IState.mk [] [] [] [] (.int 5)) (by decide) (by decide)⟩

/-- `isinstance(obj, Tool)` on a runtime value. -/
def isToolVal : Value → Bool
  | .tool _ => true
  | _ => false

/-- C5: the callee of a Call is resolved, after evaluating the arguments
left-to-right, in this exact precedence order: (1) user-defined function of
that name; (2) environment binding, which invokes the underlying native
callable when it is a tool reference and fails with "not callable"
otherwise — so an imported tool shadows a same-named builtin; (3) builtin;
otherwise "function not defined". -/
theorem c5_call_resolution_precedence :
    ∀ (hostX : Nat → List Value → Except Err Value) (fuel : Nat)
      (fn : String) (args : List Expr) (st st1 : IState)
      (argv : List Value),
      evalExprList hostX fuel args st [] = (st1, .ok argv) →
      ((∀ fd, getk st1.functions fn = some fd →
          evaluateCall hostX (fuel + 1) fn args st =
            callUserFunction hostX fuel fn argv st1)
       ∧ (∀ tl, getk st1.functions fn = Option.none →
            getk st1.env fn = some (.tool tl) →
            evaluateCall hostX (fuel + 1) fn args st =
              (st1, match hostX tl.func argv with
                    | .ok v => .ok v
                    | .error e => .err e))
       ∧ (∀ v, getk st1.functions fn = Option.none →
            getk st1.env fn = some v → isToolVal v = false →
            evaluateCall hostX (fuel + 1) fn args st =
              (st1, .err (.runtimeError ("'" ++ fn ++ "' is not callable"))))
       ∧ (∀ tl, getk st1.functions fn = Option.none →
            getk st1.env fn = Option.none →
            getk st1.builtin_map fn = some tl →
            evaluateCall hostX (fuel + 1) fn args st =
              (st1, match hostX tl.func argv with
                    | .ok v => .ok v
                    | .error e => .err e))
       ∧ (getk st1.functions fn = Option.none →
            getk st1.env fn = Option.none →
            getk st1.builtin_map fn = Option.none →
            evaluateCall hostX (fuel + 1) fn args st =
              (st1, .err (.runtimeError
                ("Function '" ++ fn ++ "' not defined"))))) := by
  intro hostX fuel fn args st st1 argv hargs
  refine ⟨?_, ?_, ?_, ?_, ?_⟩
  · intro fd hfd
    simp only [evaluateCall, hargs, hfd]
  · intro tl hfd henv
    simp only [evaluateCall, hargs, hfd, henv]
    rcases hh : hostX tl.func argv with v | e <;> simp [hh]
  · intro v hfd henv htool
    simp only [evaluateCall, hargs, hfd, henv]
    cases v <;> simp_all [isToolVal]
  · intro tl hfd henv hbi
    simp only [evaluateCall, hargs, hfd, henv, hbi]
    rcases hh : hostX tl.func argv with v | e <;> simp [hh]
  · intro hfd henv hbi
    simp only [evaluateCall, hargs, hfd, henv, hbi]

/-- Interpreter state after `from io import print` against `exTools`: the
environment binds `print` to the imported tool while `builtin_map` still
holds the builtin `print`. -/
def c5State : IState :=
  { tool_map := (buildToolMaps exTools).1,
    builtin_map := (buildToolMaps exTools).2,
    env := [("print", .tool (Tool.mk "io_print" 2 ""))],
    functions := [], last_value := .none }

/-- Witness: with both an imported `print` and a builtin `print` in scope,
`print("hi")` invokes the imported tool (host index 2), not the builtin. -/
theorem c5_call_resolution_precedence_witness :
    evaluateCall exHost 100 "print" [Expr.string "hi"] c5State =
      (c5State, .ok (.str "imported")) :=
  (c5_call_resolution_precedence exHost 99 "print" [Expr.string "hi"]
      c5State c5State [Value.str "hi"] rfl).2.1
    (Tool.mk "io_print" 2 "") rfl rfl

/-- The indentation-counting loop passes over a run of spaces/tabs and
stops at `#`, changing only the column (not line, `at_line_start` or the
indent stack). -/
theorem countIndent_ws_comment (rest : List Char) :
    ∀ (ws : List Char), (∀ c, c ∈ ws → c = ' ' ∨ c = '\t') →
      ∀ (m : LexMeta) (level : Nat),
      ∃ level2 m2,
        countIndent (ws ++ '#' :: rest) m level
          = some (level2, '#' :: rest, m2)
        ∧ m2.at_line_start = m.at_line_start ∧ m2.line = m.line
        ∧ m2.indent_stack = m.indent_stack := by
  intro ws
  induction ws with
  | nil => intro _ m level; exact ⟨level, m, rfl, rfl, rfl, rfl⟩
  | cons c l ih =>
    intro hws m level
    have hc := hws c (by simp)
    have hl : ∀ c, c ∈ l → c = ' ' ∨ c = '\t' := by
      intro c2 hc2; exact hws c2 (by simp [hc2])
    rcases hc with rfl | rfl
    · obtain ⟨l2, m2, heq, h1, h2, h3⟩ := ih hl (advMeta ' ' m) (level + 1)
      exact ⟨l2, m2, heq, h1, h2, h3⟩
    · obtain ⟨l2, m2, heq, h1, h2, h3⟩ := ih hl (advMeta '\t' m) (level + 4)
      exact ⟨l2, m2, heq, h1, h2, h3⟩

/-- `handle_indentation` on a line whose first non-space character is `#`:
no tokens, the cursor still sits on the `#`, and only the
`at_line_start` flag changes. -/
theorem handleIndentation_comment (ws rest : List Char) (m : LexMeta)
    (hws : ∀ c, c ∈ ws → c = ' ' ∨ c = '\t')
    (hals : m.at_line_start = true) :
    ∃ m2, handleIndentation (ws ++ '#' :: rest) m
        = some (.ok ([], '#' :: rest, m2))
      ∧ m2.at_line_start = false ∧ m2.line = m.line := by
  obtain ⟨level2, m2, heq, h1, h2, h3⟩ := countIndent_ws_comment rest ws hws m 0
  refine ⟨{ m2 with at_line_start := false }, ?_, rfl, h2⟩
  simp only [handleIndentation, hals, heq]
  simp

/-- C3: a line whose first non-space character is `#` is NOT skipped:
`handle_indentation` leaves the cursor on the `#` and the scanner's
dispatch has no branch for it, so `tokenize` raises
`SyntaxError("Unexpected character: #...")` (first conjunct, for any
leading space/tab run and any rest of the source).  Blank lines, by
contrast, only produce NEWLINE tokens: the second conjunct shows a script
with an empty and a whitespace-only line tokenizing with no
INDENT/DEDENT. -/
theorem c3_comment_line_raises_unexpected_character :
    (∀ (ws rest : List Char), (∀ c, c ∈ ws → c = ' ' ∨ c = '\t') →
       tokenize (ws ++ '#' :: rest) =
         some (.error (.syntaxError "Unexpected character: # at line 1")))
  ∧ tokenize "x = 1\n\n   \ny = 2".toList =
      some (.ok [Token.mk .IDENTIFIER (.str "x") 1, Token.mk .EQUAL (.str "=") 1,
           Token.mk .NUMBER (.num 1) 1, Token.mk .NEWLINE (.str "\n") 1,
           Token.mk .NEWLINE (.str "\n") 2, Token.mk .NEWLINE (.str "\n") 3,
           Token.mk .IDENTIFIER (.str "y") 4, Token.mk .EQUAL (.str "=") 4,
           Token.mk .NUMBER (.num 2) 4, Token.mk .EOF .none 4]) := by
  constructor
  · intro ws rest hws
    obtain ⟨m2, hhi, hals2, hline⟩ :=
      handleIndentation_comment ws rest initMeta hws rfl
    obtain ⟨c0, cs0, hcons⟩ : ∃ c0 cs0, ws ++ '#' :: rest = c0 :: cs0 := by
      cases ws with
      | nil => exact ⟨_, _, rfl⟩
      | cons a l => exact ⟨_, _, rfl⟩
    have hhi2 : handleIndentation (c0 :: cs0) initMeta =
        some (.ok ([], '#' :: rest, m2)) := hcons ▸ hhi
    unfold tokenize
    rw [hcons]
    rw [show (c0 :: cs0).length + 1 = cs0.length + 1 + 1 from by simp]
    simp only [tokenizeLoop, hhi2]
    have hsw : skipWhitespace ('#' :: rest) m2
        = some ('#' :: rest, m2) := rfl
    have hscan : scanToken '#' rest m2 = .error (.syntaxError
        ("Unexpected character: # at line " ++ toString m2.line)) := rfl
    simp only [hsw, hscan]
    rw [show m2.line = 1 from hline]
    rfl
  · rfl



/-- Witness for the comment-line conjunct of C3 at the concrete source
`"  #hi"`. -/
theorem c3_comment_line_raises_witness :
    tokenize ([' ', ' '] ++ '#' :: "hi".toList) =
      some (.error (.syntaxError "Unexpected character: # at line 1")) :=
  c3_comment_line_raises_unexpected_character.1 [' ', ' '] "hi".toList
    (by intro c hc; simp at hc; rcases hc with rfl | rfl <;> simp)

theorem advMeta_indent_stack (c : Char) (m : LexMeta) :
    (advMeta c m).indent_stack = m.indent_stack := by
  unfold advMeta; split <;> rfl

/-- `read_string` with no closing quote in the remaining input consumes
everything: it returns all remaining characters as the string value,
leaves the cursor at the end, and does not touch the indent stack. -/
theorem readStringLoop_no_quote (q : Char) :
    ∀ (l : List Char) (m : LexMeta) (acc : List Char),
      (∀ c, c ∈ l → c ≠ q) →
      ∃ m3, readStringLoop q l m acc = (acc ++ l, [], m3)
        ∧ m3.indent_stack = m.indent_stack := by
  intro l
  induction l with
  | nil =>
    intro m acc _
    exact ⟨advMetaEOF m, by simp [readStringLoop], rfl⟩
  | cons c l ih =>
    intro m acc hl
    have hc : c ≠ q := hl c (by simp)
    have hl2 : ∀ c2, c2 ∈ l → c2 ≠ q := by
      intro c2 h2; exact hl c2 (by simp [h2])
    obtain ⟨m3, heq, hstack⟩ := ih (advMeta c m) (acc ++ [c]) hl2
    refine ⟨m3, ?_, ?_⟩
    · simp only [readStringLoop, if_neg hc, heq]
      simp
    · rw [hstack, advMeta_indent_stack]

/-- C9: an unterminated string literal does not make the lexer raise.
First conjunct (any lexer state): when the scan loop reaches an opening
`"` or `'` with no matching quote in the rest of the source, it returns
normally with one STRING token holding all remaining characters after the
opening quote, and stops at the end of input.  Second conjunct (whole
`tokenize`): a source that begins with such a literal yields exactly that
STRING token and EOF. -/
theorem c9_unterminated_string_tokenizes :
    (∀ (fuel : Nat) (cs : List Char) (m : LexMeta) (acc its : List Token)
       (cs1 : List Char) (m1 m2 : LexMeta) (q : Char) (rest : List Char),
       handleIndentation cs m = some (.ok (its, cs1, m1)) →
       skipWhitespace cs1 m1 = some (q :: rest, m2) →
       (q = '"' ∨ q = '\'') →
       (∀ c, c ∈ rest → c ≠ q) →
       cs ≠ [] →
       ∃ m3, tokenizeLoop (fuel + 1) cs m acc =
           .ok (acc ++ its
                ++ [Token.mk .STRING (.str (String.mk rest)) m3.line]) [] m3
         ∧ m3.indent_stack = m2.indent_stack)
  ∧ (∀ (q : Char) (s : List Char),
       (q = '"' ∨ q = '\'') →
       (∀ c, c ∈ s → c ≠ q) →
       ∃ ln, tokenize (q :: s) =
         some (.ok [Token.mk .STRING (.str (String.mk s)) ln,
              Token.mk .EOF .none ln])) := by
  have scan : ∀ (q : Char) (rest : List Char) (m2 : LexMeta),
      (q = '"' ∨ q = '\'') → (∀ c, c ∈ rest → c ≠ q) →
      ∃ m3, scanToken q rest m2 =
          .ok (Token.mk .STRING (.str (String.mk rest)) m3.line, [], m3)
        ∧ m3.indent_stack = m2.indent_stack := by
    intro q rest m2 hq hrest
    obtain ⟨m3, heq, hstack⟩ :=
      readStringLoop_no_quote q rest (advMeta q m2) [] hrest
    rcases hq with rfl | rfl
    · refine ⟨m3, ?_, by rw [hstack, advMeta_indent_stack]⟩
      simp only [scanToken, readString]
      simp only [heq]
      rfl
    · refine ⟨m3, ?_, by rw [hstack, advMeta_indent_stack]⟩
      simp only [scanToken, readString]
      simp only [heq]
      rfl
  have part1 : ∀ (fuel : Nat) (cs : List Char) (m : LexMeta)
      (acc its : List Token) (cs1 : List Char) (m1 m2 : LexMeta) (q : Char)
      (rest : List Char),
      handleIndentation cs m = some (.ok (its, cs1, m1)) →
      skipWhitespace cs1 m1 = some (q :: rest, m2) →
      (q = '"' ∨ q = '\'') →
      (∀ c, c ∈ rest → c ≠ q) →
      cs ≠ [] →
      ∃ m3, tokenizeLoop (fuel + 1) cs m acc =
          .ok (acc ++ its
               ++ [Token.mk .STRING (.str (String.mk rest)) m3.line]) [] m3
        ∧ m3.indent_stack = m2.indent_stack := by
    intro fuel cs m acc its cs1 m1 m2 q rest hhi hsw hq hrest hne
    obtain ⟨c0, cs0, hcons⟩ : ∃ c0 cs0, cs = c0 :: cs0 := by
      cases cs with
      | nil => exact absurd rfl hne
      | cons a l => exact ⟨_, _, rfl⟩
    obtain ⟨m3, hscan, hstack⟩ := scan q rest m2 hq hrest
    subst hcons
    refine ⟨m3, ?_, hstack⟩
    simp only [tokenizeLoop, hhi, hsw, hscan]
  refine ⟨part1, ?_⟩
  intro q s hq hs
  have hhi : handleIndentation (q :: s) initMeta =
      some (.ok ([], q :: s, { initMeta with at_line_start := false })) := by
    rcases hq with rfl | rfl <;> rfl
  have hsw : skipWhitespace (q :: s)
      ({ initMeta with at_line_start := false }) =
      some (q :: s, { initMeta with at_line_start := false }) := by
    rcases hq with rfl | rfl <;> rfl
  obtain ⟨m3, hloop, hstack⟩ :=
    part1 (s.length + 1) (q :: s) initMeta [] [] (q :: s)
      ({ initMeta with at_line_start := false })
      ({ initMeta with at_line_start := false }) q s
      hhi hsw hq hs (by simp)
  have hstack0 : m3.indent_stack = [0] := hstack
  refine ⟨m3.line, ?_⟩
  unfold tokenize
  rw [show (q :: s).length + 1 = s.length + 1 + 1 from by simp]
  rw [hloop]
  simp [hstack0]

/-- Witness for C9 at the concrete source `'abc` (opening quote, no
closing quote before end of input). -/
theorem c9_unterminated_string_tokenizes_witness :
    ∃ ln, tokenize ('\'' :: "abc".toList) =
      some (.ok [Token.mk .STRING (.str "abc") ln,
        Token.mk .EOF .none ln]) :=
  c9_unterminated_string_tokenizes.2 '\'' "abc".toList (Or.inr rfl)
    (by intro c hc; simp at hc; rcases hc with rfl | rfl | rfl <;> simp)


/-- Splitting a separator-free character list yields one segment. -/
theorem splitOnCharGo_no_sep (sep : Char) :
    ∀ (cs cur : List Char), (∀ c, c ∈ cs → c ≠ sep) →
      splitOnCharGo sep cs cur = [cur.reverse ++ cs] := by
  intro cs
  induction cs with
  | nil => intro cur _; simp [splitOnCharGo]
  | cons c rest ih =>
    intro cur h
    have hc : c ≠ sep := h c (by simp)
    have hrest : ∀ c2, c2 ∈ rest → c2 ≠ sep := by
      intro c2 h2; exact h c2 (by simp [h2])
    simp only [splitOnCharGo, if_neg hc]
    rw [ih (c :: cur) hrest]
    simp

/-- `Parser.expect` succeeding returns the current token, whose type is the
expected one, advancing by one. -/
theorem expect_ok (t : List Token) (pos : Nat) (tt : TokenType)
    (tok : Token) (pos2 : Nat) (h : expect t pos tt = .ok (tok, pos2)) :
    tok = currentToken t pos ∧ tok.type = tt ∧ pos2 = pos + 1 := by
  unfold expect at h
  split at h
  · simp at h
  · rename_i hn
    rw [Except.ok.injEq, Prod.mk.injEq] at h
    obtain ⟨h1, h2⟩ := h
    exact ⟨h1.symm, by rw [← h1]; exact not_not.mp hn, h2.symm⟩

/-- `Parser.current_token` yields a member of the token list, or the
unreachable empty-list default. -/
theorem currentToken_mem_or_default (t : List Token) (pos : Nat) :
    currentToken t pos ∈ t ∨ currentToken t pos = Token.mk .EOF .none 0 := by
  unfold currentToken
  split
  · cases t with
    | nil => right; rfl
    | cons a l =>
      left
      rw [List.getLastD_eq_getLast?]
      cases hl : (a :: l).getLast? with
      | none => simp at hl
      | some x =>
        have hx : x ∈ (a :: l).getLast? := by rw [Option.mem_def, hl]
        obtain ⟨hne, hxe⟩ := List.mem_getLast?_eq_getLast hx
        simp only [hxe, Option.getD_some]
        exact List.getLast_mem hne
  · rename_i hlt
    left
    rw [List.getD_eq_getElem t _ (by omega)]
    exact List.getElem_mem _

/-- The module-path loop only extends its accumulator. -/
theorem parseModulePathLoop_extends (t : List Token) :
    ∀ (fuel : Nat) (pos : Nat) (init parts : List String) (pos2 : Nat),
      parseModulePathLoop fuel t pos init = .ok parts pos2 →
      ∃ suf, parts = init ++ suf := by
  intro fuel
  induction fuel with
  | zero => intro pos init parts pos2 h; simp [parseModulePathLoop] at h
  | succ f ih =>
    intro pos init parts pos2 h
    simp only [parseModulePathLoop] at h
    split at h
    · split at h
      · simp at h
      · rename_i tok tokpos heq
        obtain ⟨suf, hsuf⟩ := ih _ _ _ _ h
        exact ⟨tvStr tok.value :: suf, by simp [hsuf]⟩
    · rw [PRes.ok.injEq] at h
      exact ⟨[], by simp [h.1]⟩

/-- `".".join` of a nonempty list starts with its first element. -/
theorem joinSep_dot_cons (v : String) (l : List String) :
    ∃ tail, joinSep "." (v :: l) = v ++ tail := by
  cases l with
  | nil => exact ⟨"", by simp [joinSep]⟩
  | cons w ws =>
    exact ⟨"." ++ joinSep "." (w :: ws), by simp [joinSep, String.append_assoc]⟩

/-- A lexer-produced IDENTIFIER value: nonempty text whose first character
is a letter or underscore. -/
def identShapedB : TokenValue → Bool
  | .str s =>
    match s.toList with
    | c :: _ => c.isAlpha || c = '_'
    | [] => false
  | _ => false

theorem identShapedB_spec (tv : TokenValue) (h : identShapedB tv = true) :
    ∃ s c cs, tv = .str s ∧ s.toList = c :: cs ∧
      (c.isAlpha = true ∨ c = '_') := by
  cases tv with
  | str s =>
    simp only [identShapedB] at h
    cases hl : s.toList with
    | nil => rw [hl] at h; simp at h
    | cons c cs =>
      rw [hl] at h
      simp only [Bool.or_eq_true, decide_eq_true_eq] at h
      exact ⟨s, c, cs, rfl, hl, h⟩
  | none => simp [identShapedB] at h
  | num n => simp [identShapedB] at h

/-- A string starting with a non-dot character, however extended on the
right, never equals a string starting with `"."`. -/
theorem head_ne_dot_append (s0 tail nm foo : String) (c : Char)
    (cs : List Char) (hdata : s0.toList = c :: cs) (hc : c ≠ '.') :
    (s0 ++ tail) ++ "." ++ nm ≠ "." ++ foo := by
  intro h
  have hd := congrArg String.data h
  simp only [String.data_append] at hd
  have hdata2 : s0.data = c :: cs := hdata
  rw [hdata2] at hd
  simp at hd
  exact hc hd.1


/-- C10: a non-builtin tool with a single-segment name (no underscore) is
keyed in `tool_map` under `"." ++ name` — the empty module path joined to
the bare name — and no import statement can ever look that key up: the
parser requires every module path to begin with an IDENTIFIER token, whose
text (for lexer-produced tokens) starts with a letter or underscore, so
every selective-import lookup key has the form `module_path ++ "." ++ nm`
with a non-dot first character, which never equals `"." ++ name`.
Conjuncts: (1) the derived registry key for an underscore-free name;
(2) registry construction for such a tool; (3) every successful
selective-import parse yields a module path whose keys can never match a
leading-dot key. -/
theorem c10_single_segment_tool_never_importable :
    (∀ (name : String), ('_' ∉ name.toList) →
       toolFullPath name = "." ++ name)
  ∧ (∀ (tl : Tool),
       "builtins_".toList.isPrefixOf tl.name.toList = false →
       buildToolMaps [tl] = ([(toolFullPath tl.name, tl)], []))
  ∧ (∀ (fuel : Nat) (t : List Token) (pos : Nat) (mp : String)
       (names : List String) (pos2 : Nat),
       (∀ tok, tok ∈ t → tok.type = .IDENTIFIER →
         identShapedB tok.value = true) →
       parseImportStatement fuel t pos =
         .ok (.importStmt mp (some names) Option.none) pos2 →
       ∀ (nm foo : String), mp ++ "." ++ nm ≠ "." ++ foo) := by
  refine ⟨?_, ?_, ?_⟩
  · intro name hname
    unfold toolFullPath splitOnChar
    rw [splitOnCharGo_no_sep '_' name.toList []
        (by intro c hc heq; exact hname (heq ▸ hc))]
    simp [joinSep]
  · intro tl hpre
    have hpre2 : ¬ ("builtins_".toList <+: tl.name.toList) := by
      rw [← List.isPrefixOf_iff_prefix, hpre]; simp
    simp only [buildToolMaps, List.foldl_cons, List.foldl_nil]
    rw [if_neg (by simpa using hpre2)]
    rfl
  · intro fuel t pos mp names pos2 hwf h
    match fuel with
    | 0 => simp [parseImportStatement] at h
    | fuel + 1 =>
      simp only [parseImportStatement] at h
      split at h
      · -- FROM branch
        rename_i hfrom
        split at h
        · simp at h
        · rename_i tokF posF heqF
          split at h
          · simp at h
          · rename_i tok0 pos0 heq0
            split at h
            · simp at h
            · simp at h
            · rename_i parts pos3 heqMP
              split at h
              · simp at h
              · rename_i tokI posI heqI
                split at h
                · simp at h
                · rename_i name0 pos4 heqN
                  split at h
                  · simp at h
                  · simp at h
                  · rename_i names2 pos5 heqNL
                    split at h
                    · simp at h
                    · simp at h
                    · rw [PRes.ok.injEq, Stmt.importStmt.injEq] at h
                      obtain ⟨⟨hmp, _, _⟩, _⟩ := h
                      -- the first module-path identifier is well-shaped
                      obtain ⟨htok0, hty0, _⟩ := expect_ok _ _ _ _ _ heq0
                      have hmem : currentToken t posF ∈ t := by
                        rcases currentToken_mem_or_default t posF with hm | hd
                        · exact hm
                        · have hty2 : (currentToken t posF).type =
                              TokenType.IDENTIFIER := by
                            rw [← htok0]; exact hty0
                          rw [hd] at hty2
                          simp at hty2
                      have hshape : identShapedB tok0.value = true := by
                        refine hwf tok0 ?_ hty0
                        rw [htok0]; exact hmem
                      obtain ⟨s0, c, cs, hv, hl, hfirst⟩ :=
                        identShapedB_spec tok0.value hshape
                      obtain ⟨suf, hsuf⟩ :=
                        parseModulePathLoop_extends t _ _ _ _ _ heqMP
                      have hs0 : tvStr tok0.value = s0 := by rw [hv]; rfl
                      rw [hs0] at hsuf
                      obtain ⟨tail, htail⟩ := joinSep_dot_cons s0 suf
                      have hcne : c ≠ '.' := by
                        rcases hfirst with hA | hU
                        · intro hEq; rw [hEq] at hA; simp at hA
                        · intro hEq; rw [hEq] at hU; simp at hU
                      intro nm foo
                      rw [← hmp, hsuf]
                      simp only [List.singleton_append]
                      rw [htail]
                      exact head_ne_dot_append s0 tail nm foo c cs hl hcne
      · split at h
        · -- alias branch: produces names = None, contradicting `some names`
          rename_i himp
          split at h
          · simp at h
          · rename_i tokI2 posI2 heqI2
            split at h
            · simp at h
            · rename_i tok02 pos02 heq02
              split at h
              · simp at h
              · simp at h
              · rename_i parts2 pos32 heqMP2
                split at h
                · simp at h
                · rename_i tokA posA heqA
                  split at h
                  · simp at h
                  · rename_i tokAl posAl heqAl
                    split at h
                    · simp at h
                    · simp at h
                    · simp at h
        · simp at h


/-- Tokens of `from m import a`. -/
def c10toks : List Token :=
  [Token.mk .FROM (.str "from") 1, Token.mk .IDENTIFIER (.str "m") 1,
   Token.mk .IMPORT (.str "import") 1, Token.mk .IDENTIFIER (.str "a") 1,
   Token.mk .EOF .none 1]

/-- Witness for C10: the single-segment tool name `foo` is keyed `".foo"`,
registry construction stores it there, and the import of `from m import a`
(a well-formed selective import) looks up a key that cannot be `".foo"`. -/
theorem c10_single_segment_tool_never_importable_witness :
    toolFullPath "foo" = "." ++ "foo"
  ∧ buildToolMaps [Tool.mk "foo" 7 ""] =
      ([(toolFullPath "foo", Tool.mk "foo" 7 "")], [])
  ∧ ("m" ++ "." ++ "foo" ≠ "." ++ "foo") :=
  ⟨c10_single_segment_tool_never_importable.1 "foo" (by decide),
   c10_single_segment_tool_never_importable.2.1 (Tool.mk "foo" 7 "")
     (by decide),
   c10_single_segment_tool_never_importable.2.2 100 c10toks 0 "m" ["a"] 4
     (by decide) rfl "foo" "foo"⟩

end SimpleScript
